import Mathlib

/-!
Shallow embedding of `infoblox/infoblox.py` (Infoblox IPAM REST client).

Modeling conventions:
* JSON bodies are the inductive `JSON`; an HTTP response is its status code
  together with `Option JSON` (`none` models a body that fails to parse,
  so that `response.json()` raises `ValueError`).
* The custom `Session.request` wrapper calls `raise_for_status()` on every
  response, so every `session.get/post/put/delete` raises
  `requests.HTTPError` for a 4xx/5xx status before the calling operation
  inspects it; `sessionReq` models this.
* Each operation takes the responses of the (at most two) HTTP calls it can
  make as explicit arguments, in call order, and returns the Python
  outcome together with a `Bool` recording whether the second (mutating)
  call was actually issued.  URL strings and request payload text are built
  from constructor-time configuration by pure string concatenation in the
  source and do not influence any behaviour modeled here, so they are
  elided; where their construction can raise (string concatenation with a
  non-string reference) the corresponding check (`pyStr`) is kept.
* Python exceptions outside the library's taxonomy (KeyError,
  AttributeError, TypeError, IndexError, ValueError) are modeled as
  dedicated `Err` constructors.  The `except ValueError` handler that wraps
  each operation body is `wrapVE`, turning an escaping `ValueError` into
  `InfobloxGeneralException(r)` (`Err.generalResp`).
-/

inductive JSON where
  | null
  | bool (b : Bool)
  | num (n : Int)
  | str (s : String)
  | arr (xs : List JSON)
  | obj (fs : List (String × JSON))

mutual

/-- Structural equality of JSON values (Python `==` on decoded bodies). -/
def JSON.beq : JSON → JSON → Bool
  | .null, .null => true
  | .bool a, .bool b => a == b
  | .num a, .num b => a == b
  | .str a, .str b => a == b
  | .arr xs, .arr ys => JSON.beqList xs ys
  | .obj fs, .obj gs => JSON.beqFields fs gs
  | _, _ => false

def JSON.beqList : List JSON → List JSON → Bool
  | [], [] => true
  | x :: xs, y :: ys => JSON.beq x y && JSON.beqList xs ys
  | _, _ => false

def JSON.beqFields : List (String × JSON) → List (String × JSON) → Bool
  | [], [] => true
  | (k, v) :: xs, (l, w) :: ys => k == l && JSON.beq v w && JSON.beqFields xs ys
  | _, _ => false

end

instance : BEq JSON := ⟨JSON.beq⟩

/-- Error outcomes: the library's exception taxonomy plus the raw Python
exceptions that can escape the operations. -/
inductive Err where
  | notFound (msg : JSON)
  | general (msg : JSON)
  | generalResp
  | noIPAvailable (msg : JSON)
  | noNetworkAvailable (msg : JSON)
  | notUpdated (msg : JSON)
  | badInput (msg : String)
  | httpError (status : Nat)
  | keyError (key : String)
  | indexError
  | typeError
  | attributeError
  | valueError

abbrev Py (α : Type) := Except Err α

structure Response where
  status : Nat
  body : Option JSON

/-- `Session.request`: performs the round trip and calls
`raise_for_status()`, so a 4xx/5xx status raises `requests.HTTPError` at
the call site of `session.get/post/put/delete`. -/
def sessionReq (r : Response) : Py Response :=
  if 400 ≤ r.status ∧ r.status < 600 then .error (.httpError r.status) else .ok r

/-- `r.raise_for_status()` as called inside the operations themselves
(a no-op after `sessionReq` has let the response through). -/
def raiseForStatus (status : Nat) : Py Unit :=
  if 400 ≤ status ∧ status < 600 then .error (.httpError status) else .ok ()

/-- `r.json()`: parse failure raises `ValueError`. -/
def rJson (r : Response) : Py JSON :=
  match r.body with
  | some j => .ok j
  | none => .error .valueError

/-- The `except ValueError: raise InfobloxGeneralException(r)` wrapper. -/
def wrapVE {α : Type} : Py α × Bool → Py α × Bool
  | (.error .valueError, b) => (.error .generalResp, b)
  | x => x

/-- `wrapVE` for single-call operations. -/
def wrapVE1 {α : Type} : Py α → Py α
  | .error .valueError => .error .generalResp
  | x => x

/-- Sequencing before the second (mutating) HTTP call: an error here means
the mutate was never issued. -/
def preM {β α : Type} (x : Py β) (k : β → Py α × Bool) : Py α × Bool :=
  match x with
  | .error e => (.error e, false)
  | .ok b => k b

/-- Sequencing after the mutating HTTP call has been issued. -/
def postM {β α : Type} (x : Py β) (k : β → Py α × Bool) : Py α × Bool :=
  match x with
  | .error e => (.error e, true)
  | .ok b => k b

/-- First value bound to a key in a JSON object's field list. -/
def lookupKey : List (String × JSON) → String → Option JSON
  | [], _ => none
  | (a, v) :: rest, k => if a == k then some v else lookupKey rest k

/-- Python dict assignment `d[k] = v` on an association list: replace the
value in place if the key is present, otherwise append. -/
def dictSet : List (String × JSON) → String → JSON → List (String × JSON)
  | [], k, v => [(k, v)]
  | (a, w) :: rest, k, v =>
    if a == k then (k, v) :: rest else (a, w) :: dictSet rest k v

/-- Python `len()`. -/
def pyLen : JSON → Py Nat
  | .arr xs => .ok xs.length
  | .obj fs => .ok fs.length
  | .str s => .ok s.length
  | _ => .error .typeError

/-- Substring test for Python `in` on strings. -/
def strContains (s pat : String) : Bool :=
  if pat = "" then true else (s.splitOn pat).length > 1

/-- Python `k in j`. -/
def pyIn (k : String) : JSON → Py Bool
  | .obj fs => .ok (fs.any (fun p => p.1 == k))
  | .arr xs => .ok (xs.contains (JSON.str k))
  | .str s => .ok (strContains s k)
  | _ => .error .typeError

/-- Python `j[k]` with a string key. -/
def pyGetItem (j : JSON) (k : String) : Py JSON :=
  match j with
  | .obj fs =>
    match lookupKey fs k with
    | some v => .ok v
    | none => .error (.keyError k)
  | _ => .error .typeError

/-- Python `j[i]` with an integer index. -/
def pyIndex (j : JSON) (i : Nat) : Py JSON :=
  match j with
  | .arr xs =>
    match xs.get? i with
    | some v => .ok v
    | none => .error .indexError
  | .str s =>
    match s.toList.get? i with
    | some c => .ok (.str (String.mk [c]))
    | none => .error .indexError
  | .obj _ => .error (.keyError (toString i))
  | _ => .error .typeError

/-- Python truthiness. -/
def pyTruthy : JSON → Bool
  | .null => false
  | .bool b => b
  | .num n => n != 0
  | .str s => s != ""
  | .arr xs => !xs.isEmpty
  | .obj fs => !fs.isEmpty

/-- A JSON value used where a `str` is required (URL concatenation,
`re.match`): anything else raises `TypeError`. -/
def pyStr : JSON → Py String
  | .str s => .ok s
  | _ => .error .typeError

/-- Consume a literal character sequence. -/
def chompSeq : List Char → List Char → Option (List Char)
  | [], rest => some rest
  | c :: cs, d :: ds => if d = c then chompSeq cs ds else none
  | _ :: _, [] => none

/-- Consume `[0-9]+`. -/
def chompDigits (cs : List Char) : Option (List Char) :=
  let ds := cs.takeWhile Char.isDigit
  if ds.isEmpty then none else some (cs.dropWhile Char.isDigit)

/-- Consume one literal character. -/
def chompChar (c : Char) : List Char → Option (List Char)
  | d :: ds => if d = c then some ds else none
  | [] => none

/-- Consume `[0-9]+\.[0-9]+\.[0-9]+\.[0-9]+`. -/
def chompQuad (cs : List Char) : Option (List Char) := do
  let r ← chompDigits cs
  let r ← chompChar '.' r
  let r ← chompDigits r
  let r ← chompChar '.' r
  let r ← chompDigits r
  let r ← chompChar '.' r
  chompDigits r

/-- Python's `$` anchor: it matches at the end of the string, or just
before a single newline at the end of the string. -/
def dollarEnd : List Char → Bool
  | [] => true
  | ['\n'] => true
  | _ => false

/-- `re.match("^[0-9]+\.[0-9]+\.[0-9]+\.[0-9]+\/[0-9]+$", s)`
(so `"1.2.3.4/24\n"` matches: `$` accepts the single trailing newline). -/
def matchesCIDR (s : String) : Bool :=
  match (chompQuad s.toList).bind (chompChar '/') |>.bind chompDigits with
  | some rest => dollarEnd rest
  | none => false

/-- The dotted-quad range form
`re.match("^[0-9]+\.[0-9]+\.[0-9]+\.[0-9]+-[0-9]+\.[0-9]+\.[0-9]+\.[0-9]+$", s)`,
with `$` accepting a single trailing newline. -/
def matchesRange (s : String) : Bool :=
  match (chompQuad s.toList).bind (chompChar '-') |>.bind chompQuad with
  | some rest => dollarEnd rest
  | none => false

/-- The plain dotted-quad form
`re.match("^[0-9]+\.[0-9]+\.[0-9]+\.[0-9]+$", s)`, with `$` accepting a
single trailing newline. -/
def matchesQuad (s : String) : Bool :=
  match chompQuad s.toList with
  | some rest => dollarEnd rest
  | none => false

/-- `re.match(lead ++ "[^:]+:([^\/]+)\/", ref)`, returning `group(1)`:
after the literal lead, one or more non-colon characters, a colon, then the
captured non-slash run, then a slash. -/
def refName (lead ref : String) : Option String :=
  match chompSeq lead.toList ref.toList with
  | none => none
  | some rest =>
    let p1 := rest.takeWhile (fun c => c ≠ ':')
    if p1.isEmpty then none else
    match rest.dropWhile (fun c => c ≠ ':') with
    | ':' :: r2 =>
      let p2 := r2.takeWhile (fun c => c ≠ '/')
      if p2.isEmpty then none else
      match r2.dropWhile (fun c => c ≠ '/') with
      | '/' :: _ => some (String.mk p2)
      | _ => none
    | _ => none

/-- The guard `ref and re.match(pat, ref).group(1) == want`:
falsy reference gives `False`; a truthy non-string raises `TypeError`
inside `re.match`; a string the pattern does not match raises
`AttributeError` (`.group` on `None`). -/
def refGuard (lead want : String) (ref : JSON) : Py Bool :=
  if pyTruthy ref then
    match ref with
    | .str s =>
      match refName lead s with
      | some g => .ok (g == want)
      | none => .error .attributeError
    | _ => .error .typeError
  else .ok false

/-- The `else` branch raising `InfobloxGeneralException(msg + ref)`:
string concatenation with a non-string reference raises `TypeError`. -/
def refMismatch {α : Type} (msg : String) (ref : JSON) : Py α × Bool :=
  match ref with
  | .str s => (.error (.general (.str (msg ++ s))), false)
  | _ => (.error .typeError, false)

/-- The shared failure tail `if 'text' in r_json: raise
InfobloxGeneralException(r_json['text']) else: r.raise_for_status()`;
when `raise_for_status` does not raise, the operation falls through and
returns `None`. -/
def textTail (r_json : JSON) (status : Nat) : Py (Option JSON) := do
  let b ← pyIn "text" r_json
  if b then do
    let t ← pyGetItem r_json "text"
    .error (.general t)
  else do
    let _ ← raiseForStatus status
    pure none

mutual

/-- Approximation of Python `str()`; used only to build the
`delete_fixed_address` not-found message text, on which no claim depends. -/
def pyRepr : JSON → String
  | .null => "None"
  | .bool true => "True"
  | .bool false => "False"
  | .num n => toString n
  | .str s => s
  | .arr xs => "[" ++ pyReprList xs ++ "]"
  | .obj fs => "\x7b" ++ pyReprFields fs ++ "\x7d"

def pyReprList : List JSON → String
  | [] => ""
  | [x] => pyRepr x
  | x :: y :: xs => pyRepr x ++ ", " ++ pyReprList (y :: xs)

def pyReprFields : List (String × JSON) → String
  | [] => ""
  | [(k, v)] => k ++ ": " ++ pyRepr v
  | (k, v) :: q :: fs => k ++ ": " ++ pyRepr v ++ ", " ++ pyReprFields (q :: fs)

end

def pyReprOpt : Option JSON → String
  | none => "None"
  | some j => pyRepr j

namespace Util

/-- `Util.get`: the shared lookup helper.  `r` answers the GET (URL and
query-parameter construction elided). -/
def get (r : Response) (notFoundText : String) (notFoundFail : Bool) :
    Py (Option JSON) :=
  wrapVE1 <| do
    let _ ← sessionReq r
    let r_json ← rJson r
    if r.status = 200 then do
      let len ← pyLen r_json
      if len > 0 then
        pure (some r_json)
      else if notFoundFail then
        .error (.notFound (.str notFoundText))
      else
        pure none
    else do
      let b ← pyIn "text" r_json
      if b then do
        let t ← pyGetItem r_json "text"
        .error (.general t)
      else do
        let _ ← raiseForStatus r.status
        pure none

/-- `Util.post`: with `confirm=False` it is a dry run returning `None`
before any call; otherwise the POST is issued (`Bool` component `true`)
and 200/201 returns the parsed body. -/
def post (confirm : Bool) (r : Response) : Py (Option JSON) × Bool :=
  if !confirm then (.ok none, false)
  else
    wrapVE <|
    postM (sessionReq r) fun _ =>
    postM (rJson r) fun r_json =>
    if r.status = 200 ∨ r.status = 201 then (.ok (some r_json), true)
    else
      postM (pyIn "text" r_json) fun b =>
      if b then
        postM (pyGetItem r_json "text") fun t => (.error (.general t), true)
      else
        postM (raiseForStatus r.status) fun _ => (.ok none, true)

/-- `Util.delete_by_ref`: the DELETE is issued inside `try`; its handler
catches only `requests.HTTPError` (everything after the handler's `raise`
is unreachable), and on success the function falls through returning
`None`. -/
def delete_by_ref (r : Response) (notFoundText : String)
    (notFoundFail : Bool) : Py (Option JSON) :=
  wrapVE1 <|
    match sessionReq r with
    | .error (.httpError s) =>
      if notFoundFail then .error (.notFound (.str notFoundText))
      else .error (.httpError s)
    | .error e => .error e
    | .ok _ => .ok none

end Util

namespace Infoblox

/-- `get_next_available_ip(network)`: `r1` answers the network lookup GET,
`r2` the `next_available_ip` function POST. -/
def get_next_available_ip (network : String) (r1 r2 : Response) :
    Py (Option JSON) × Bool :=
  wrapVE <|
  preM (sessionReq r1) fun _ =>
  preM (rJson r1) fun r_json =>
  if r1.status = 200 then
    preM (pyLen r_json) fun len =>
    if len > 0 then
      preM (pyIndex r_json 0) fun first =>
      preM (pyGetItem first "_ref") fun net_ref =>
      preM (pyStr net_ref) fun _ =>
      postM (sessionReq r2) fun _ =>
      postM (rJson r2) fun r_json2 =>
      if r2.status = 200 then
        postM (pyGetItem r_json2 "ips") fun ips =>
        postM (pyIndex ips 0) fun ip_v4 => (.ok (some ip_v4), true)
      else
        postM (pyIn "text" r_json2) fun b =>
        if b then
          postM (pyIn "code" r_json2) fun hasCode =>
          if hasCode then
            postM (pyGetItem r_json2 "code") fun c =>
            if c == JSON.str "Client.Ibap.Data" then
              postM (pyGetItem r_json2 "text") fun t =>
              (.error (.noIPAvailable t), true)
            else
              postM (pyGetItem r_json2 "text") fun t =>
              (.error (.general t), true)
          else
            postM (pyGetItem r_json2 "text") fun t =>
            (.error (.general t), true)
        else
          postM (raiseForStatus r2.status) fun _ => (.ok none, true)
    else
      (.error (.notFound (.str ("No requested network found: " ++ network))),
       false)
  else
    preM (textTail r_json r1.status) fun v => (.ok v, false)

/-- `create_host_record(address, fqdn, payload=None)`: local address
validation against the three accepted regular expressions, then one POST
via `Util.post`; the `Bool` records whether that POST was issued. -/
def create_host_record (address fqdn : String) (payload : Option JSON)
    (r : Response) : Py JSON × Bool :=
  let ipv4addr : Option String :=
    if matchesCIDR address then some ("func:nextavailableip:" ++ address)
    else if matchesRange address then some ("func:nextavailableip:" ++ address)
    else if matchesQuad address then some address
    else none
  match ipv4addr with
  | none => (.error (.badInput "Expected IP or NET address in CIDR format"),
             false)
  | some _ =>
    match Util.post true r with
    | (.error e, b) => (.error e, b)
    | (.ok none, b) =>
      (.error (.general (.str ("Failed to create host record for [" ++
        address ++ "]"))), b)
    | (.ok (some r_json), b) =>
      match (do
        let addrs ← pyGetItem r_json "ipv4addrs"
        let a0 ← pyIndex addrs 0
        pyGetItem a0 "ipv4addr" : Py JSON) with
      | .error e => (.error e, b)
      | .ok v => (.ok v, b)

/-- `delete_host_record(fqdn)`: `r1` answers the lookup GET, `r2` the
DELETE on the returned reference. -/
def delete_host_record (fqdn : String) (r1 r2 : Response) : Py Unit × Bool :=
  wrapVE <|
  preM (sessionReq r1) fun _ =>
  preM (rJson r1) fun r_json =>
  if r1.status = 200 then
    preM (pyLen r_json) fun len =>
    if len > 0 then
      preM (pyIndex r_json 0) fun first =>
      preM (pyGetItem first "_ref") fun host_ref =>
      preM (refGuard "record:host/" fqdn host_ref) fun okRef =>
      if okRef then
        preM (pyStr host_ref) fun _ =>
        postM (sessionReq r2) fun _ =>
        if r2.status = 200 then (.ok (), true)
        else postM (textTail r_json r2.status) fun _ => (.ok (), true)
      else refMismatch "Received unexpected host reference: " host_ref
    else
      (.error (.notFound (.str ("No requested host found: " ++ fqdn))), false)
  else preM (textTail r_json r1.status) fun _ => (.ok (), false)

/-- `delete_txt_record(fqdn)`: `r1` answers the lookup GET, `r2` the
DELETE on the returned reference. -/
def delete_txt_record (fqdn : String) (r1 r2 : Response) : Py Unit × Bool :=
  wrapVE <|
  preM (sessionReq r1) fun _ =>
  preM (rJson r1) fun r_json =>
  if r1.status = 200 then
    preM (pyLen r_json) fun len =>
    if len > 0 then
      preM (pyIndex r_json 0) fun first =>
      preM (pyGetItem first "_ref") fun host_ref =>
      preM (refGuard "record:txt/" fqdn host_ref) fun okRef =>
      if okRef then
        preM (pyStr host_ref) fun _ =>
        postM (sessionReq r2) fun _ =>
        if r2.status = 200 then (.ok (), true)
        else postM (textTail r_json r2.status) fun _ => (.ok (), true)
      else refMismatch "Received unexpected host reference: " host_ref
    else
      (.error (.notFound (.str ("No requested host found: " ++ fqdn))), false)
  else preM (textTail r_json r1.status) fun _ => (.ok (), false)

/-- `add_host_alias(host_fqdn, alias_fqdn)`: `r1` answers the lookup GET,
`r2` the PUT with the extended alias list. -/
def add_host_alias (host_fqdn alias_fqdn : String) (r1 r2 : Response) :
    Py Unit × Bool :=
  wrapVE <|
  preM (sessionReq r1) fun _ =>
  preM (rJson r1) fun r_json =>
  if r1.status = 200 then
    preM (pyLen r_json) fun len =>
    if len > 0 then
      preM (pyIndex r_json 0) fun first =>
      preM (pyGetItem first "_ref") fun host_ref =>
      preM (refGuard "record:host/" host_fqdn host_ref) fun okRef =>
      if okRef then
        preM (pyIn "aliases" first) fun hasAl =>
        preM (if hasAl then
                match pyGetItem first "aliases" with
                | .error e => .error e
                | .ok (.arr xs) => .ok (xs ++ [JSON.str alias_fqdn])
                | .ok _ => .error .attributeError
              else .ok [JSON.str alias_fqdn]) fun _newAliases =>
        preM (pyStr host_ref) fun _ =>
        postM (sessionReq r2) fun _ =>
        if r2.status = 200 then (.ok (), true)
        else postM (textTail r_json r2.status) fun _ => (.ok (), true)
      else refMismatch "Received unexpected host reference: " host_ref
    else
      (.error (.notFound (.str ("No requested host found: " ++ host_fqdn))),
       false)
  else preM (textTail r_json r1.status) fun _ => (.ok (), false)

/-- `delete_host_alias(host_fqdn, alias_fqdn)`: `r1` answers the lookup
GET, `r2` the PUT with the shortened alias list.  `aliases.remove` on a
list not containing the alias raises `ValueError`, which the operation's
`except ValueError` handler turns into `InfobloxGeneralException(r)`. -/
def delete_host_alias (host_fqdn alias_fqdn : String) (r1 r2 : Response) :
    Py Unit × Bool :=
  wrapVE <|
  preM (sessionReq r1) fun _ =>
  preM (rJson r1) fun r_json =>
  if r1.status = 200 then
    preM (pyLen r_json) fun len =>
    if len > 0 then
      preM (pyIndex r_json 0) fun first =>
      preM (pyGetItem first "_ref") fun host_ref =>
      preM (refGuard "record:host/" host_fqdn host_ref) fun okRef =>
      if okRef then
        preM (pyIn "aliases" first) fun hasAl =>
        if hasAl then
          preM (pyGetItem first "aliases") fun al =>
          preM (match al with
                | .arr xs =>
                  if xs.contains (JSON.str alias_fqdn) then
                    .ok (xs.erase (JSON.str alias_fqdn))
                  else .error .valueError
                | _ => .error .attributeError) fun _newAliases =>
          preM (pyStr host_ref) fun _ =>
          postM (sessionReq r2) fun _ =>
          if r2.status = 200 then (.ok (), true)
          else postM (textTail r_json r2.status) fun _ => (.ok (), true)
        else
          (.error (.notFound (.str ("No requested host alias found: " ++
            alias_fqdn))), false)
      else refMismatch "Received unexpected host reference: " host_ref
    else
      (.error (.notFound (.str ("No requested host found: " ++ host_fqdn))),
       false)
  else preM (textTail r_json r1.status) fun _ => (.ok (), false)

/-- `delete_cname_record(fqdn)`: `r1` answers the lookup GET, `r2` the
DELETE on the returned reference. -/
def delete_cname_record (fqdn : String) (r1 r2 : Response) : Py Unit × Bool :=
  wrapVE <|
  preM (sessionReq r1) fun _ =>
  preM (rJson r1) fun r_json =>
  if r1.status = 200 then
    preM (pyLen r_json) fun len =>
    if len > 0 then
      preM (pyIndex r_json 0) fun first =>
      preM (pyGetItem first "_ref") fun cname_ref =>
      preM (refGuard "record:cname/" fqdn cname_ref) fun okRef =>
      if okRef then
        preM (pyStr cname_ref) fun _ =>
        postM (sessionReq r2) fun _ =>
        if r2.status = 200 then (.ok (), true)
        else postM (textTail r_json r2.status) fun _ => (.ok (), true)
      else refMismatch "Received unexpected cname record  reference: " cname_ref
    else
      (.error (.notFound (.str ("No requested cname record found: " ++ fqdn))),
       false)
  else preM (textTail r_json r1.status) fun _ => (.ok (), false)

/-- `update_cname_record(canonical, name)`: `r1` answers the lookup GET,
`r2` the PUT repointing the record.  The PUT happens only when the status
is 200 and the lookup returned exactly one record. -/
def update_cname_record (canonical name : String) (r1 r2 : Response) :
    Py Unit × Bool :=
  wrapVE <|
  preM (sessionReq r1) fun _ =>
  preM (rJson r1) fun r_json =>
  preM (pyLen r_json) fun len =>
  if r1.status = 200 ∧ len = 1 then
    preM (pyIndex r_json 0) fun ibx_cname =>
    preM (pyGetItem ibx_cname "_ref") fun cname_ref =>
    preM (pyStr cname_ref) fun _ =>
    postM (sessionReq r2) fun _ =>
    if r2.status = 200 ∨ r2.status = 201 then (.ok (), true)
    else postM (raiseForStatus r2.status) fun _ => (.ok (), true)
  else if len = 0 then
    (.error (.notFound (.str ("CNAME: " ++ name ++ " not found."))), false)
  else
    preM (textTail r_json r1.status) fun _ => (.ok (), false)

/-- `delete_dhcp_range(start_ip_v4, end_ip_v4)`: `r1` answers the lookup
GET, `r2` the DELETE; only truthiness of the reference is checked. -/
def delete_dhcp_range (start_ip_v4 end_ip_v4 : String) (r1 r2 : Response) :
    Py Unit × Bool :=
  wrapVE <|
  preM (sessionReq r1) fun _ =>
  preM (rJson r1) fun r_json =>
  if r1.status = 200 then
    preM (pyLen r_json) fun len =>
    if len > 0 then
      preM (pyIndex r_json 0) fun first =>
      preM (pyGetItem first "_ref") fun range_ref =>
      if pyTruthy range_ref then
        preM (pyStr range_ref) fun _ =>
        postM (sessionReq r2) fun _ =>
        if r2.status = 200 then (.ok (), true)
        else postM (textTail r_json r2.status) fun _ => (.ok (), true)
      else
        (.error (.general (.str "No range reference received in IBA reply")),
         false)
    else
      (.error (.notFound (.str ("No requested range found: " ++ start_ip_v4 ++
        "-" ++ end_ip_v4))), false)
  else preM (textTail r_json r1.status) fun _ => (.ok (), false)

/-- Loop body for requested extensible-attribute names:
`if attribute in extattrs: result[attribute] = extattrs[attribute]['value']
else: raise InfobloxNotFoundException("No requested attribute found: " +
attribute)`. -/
def collectReq (ea : JSON) (acc : List (String × JSON)) :
    List String → Py (List (String × JSON))
  | [] => .ok acc
  | a :: rest => do
    let b ← pyIn a ea
    if b then do
      let w ← pyGetItem ea a
      let v ← pyGetItem w "value"
      collectReq ea (dictSet acc a v) rest
    else
      .error (.notFound (.str ("No requested attribute found: " ++ a)))

/-- Loop over a key list unwrapping each `{'value': v}` wrapper. -/
def goKeys (ea : JSON) (acc : List (String × JSON)) :
    List String → Py (List (String × JSON))
  | [] => .ok acc
  | k :: rest => do
    let w ← pyGetItem ea k
    let v ← pyGetItem w "value"
    goKeys ea (dictSet acc k v) rest

/-- `for attribute in extattrs.keys(): ...` (`.keys()` on a non-dict
raises `AttributeError`). -/
def collectAll (ea : JSON) : Py (List (String × JSON)) :=
  match ea with
  | .obj fs => goKeys ea [] (fs.map (fun p => p.1))
  | _ => .error .attributeError

/-- `get_host_extattrs(fqdn, attributes=None)`: single lookup GET.
`attributes` of `none` or `some []` is falsy, selecting the
full-mapping branch; the `return extattrs` is shared by both branches. -/
def get_host_extattrs (fqdn : String) (attributes : Option (List String))
    (r : Response) : Py (Option JSON) :=
  wrapVE1 <| do
    let _ ← sessionReq r
    let r_json ← rJson r
    if r.status = 200 then do
      let len ← pyLen r_json
      if len > 0 then do
        let first ← pyIndex r_json 0
        match attributes with
        | some (a :: rest) => do
          let ea ← pyGetItem first "extattrs"
          let res ← collectReq ea [] (a :: rest)
          pure (some (.obj res))
        | _ => do
          let ea ← pyGetItem first "extattrs"
          let res ← collectAll ea
          pure (some (.obj res))
      else
        .error (.notFound (.str ("No requested host found: " ++ fqdn)))
    else do
      let b ← pyIn "text" r_json
      if b then do
        let t ← pyGetItem r_json "text"
        .error (.notFound t)
      else do
        let _ ← raiseForStatus r.status
        pure none

/-- `get_network_extattrs(network, attributes=None)`: single lookup GET.
Unlike the host variant, the `return extattrs` sits inside the `else`
(no-requested-names) branch only, so the requested-names branch falls off
the end of the function and returns `None`. -/
def get_network_extattrs (network : String) (attributes : Option (List String))
    (r : Response) : Py (Option JSON) :=
  wrapVE1 <| do
    let _ ← sessionReq r
    let r_json ← rJson r
    if r.status = 200 then do
      let len ← pyLen r_json
      if len > 0 then do
        let first ← pyIndex r_json 0
        match attributes with
        | some (a :: rest) => do
          let ea ← pyGetItem first "extattrs"
          let _res ← collectReq ea [] (a :: rest)
          pure none
        | _ => do
          let ea ← pyGetItem first "extattrs"
          let res ← collectAll ea
          pure (some (.obj res))
      else
        .error (.notFound (.str ("No requested network found: " ++ network)))
    else do
      let b ← pyIn "text" r_json
      if b then do
        let t ← pyGetItem r_json "text"
        .error (.notFound t)
      else do
        let _ ← raiseForStatus r.status
        pure none

/-- Loop `for attr_name, attr_value in attributes.iteritems():
extattrs[attr_name]['value'] = attr_value` (Python 2 iteration modeled in
the given list order); a missing key raises `KeyError` and a non-dict
wrapper raises `TypeError` on item assignment. -/
def updLoop (ea : JSON) : List (String × JSON) → Py JSON
  | [] => .ok ea
  | (k, v) :: rest =>
    match ea, pyGetItem ea k with
    | _, .error e => .error e
    | .obj fs, .ok (.obj wf) =>
      updLoop (.obj (dictSet fs k (.obj (dictSet wf "value" v)))) rest
    | _, .ok _ => .error .typeError

/-- `update_network_extattrs(network, attributes)`: `r1` answers the
lookup GET, `r2` the PUT with the rewritten attribute set; only
truthiness of the reference is checked. -/
def update_network_extattrs (network : String) (attrs : List (String × JSON))
    (r1 r2 : Response) : Py Unit × Bool :=
  wrapVE <|
  preM (sessionReq r1) fun _ =>
  preM (rJson r1) fun r_json =>
  if r1.status = 200 then
    preM (pyLen r_json) fun len =>
    if len > 0 then
      preM (pyIndex r_json 0) fun first =>
      preM (pyGetItem first "_ref") fun network_ref =>
      if pyTruthy network_ref then
        preM (pyGetItem first "extattrs") fun ea =>
        preM (updLoop ea attrs) fun _newEa =>
        preM (pyStr network_ref) fun _ =>
        postM (sessionReq r2) fun _ =>
        if r2.status = 200 then (.ok (), true)
        else postM (textTail r_json r2.status) fun _ => (.ok (), true)
      else
        (.error (.general (.str
          ("No network reference received in IBA reply for network: " ++
            network))), false)
    else
      (.error (.notFound (.str ("No requested network found: " ++ network))),
       false)
  else preM (textTail r_json r1.status) fun _ => (.ok (), false)

/-- Loop `for attribute in attributes: if attribute in extattrs:
del extattrs[attribute]`. -/
def delLoop (ea : JSON) : List String → Py JSON
  | [] => .ok ea
  | k :: rest =>
    match pyIn k ea with
    | .error e => .error e
    | .ok true =>
      match ea with
      | .obj fs => delLoop (.obj (fs.filter (fun p => p.1 != k))) rest
      | _ => .error .typeError
    | .ok false => delLoop ea rest

/-- `delete_network_extattrs(network, attributes)`: `r1` answers the
lookup GET, `r2` the PUT with the pruned attribute set; only truthiness
of the reference is checked. -/
def delete_network_extattrs (network : String) (attrs : List String)
    (r1 r2 : Response) : Py Unit × Bool :=
  wrapVE <|
  preM (sessionReq r1) fun _ =>
  preM (rJson r1) fun r_json =>
  if r1.status = 200 then
    preM (pyLen r_json) fun len =>
    if len > 0 then
      preM (pyIndex r_json 0) fun first =>
      preM (pyGetItem first "_ref") fun network_ref =>
      if pyTruthy network_ref then
        preM (pyGetItem first "extattrs") fun ea =>
        preM (delLoop ea attrs) fun _newEa =>
        preM (pyStr network_ref) fun _ =>
        postM (sessionReq r2) fun _ =>
        if r2.status = 200 then (.ok (), true)
        else postM (textTail r_json r2.status) fun _ => (.ok (), true)
      else
        (.error (.general (.str
          ("No network reference received in IBA reply for network: " ++
            network))), false)
    else
      (.error (.notFound (.str ("No requested network found: " ++ network))),
       false)
  else preM (textTail r_json r1.status) fun _ => (.ok (), false)

/-- `delete_network(network)`: `r1` answers the lookup GET, `r2` the
DELETE; only truthiness of the reference is checked, its embedded
identity is never compared with `network`. -/
def delete_network (network : String) (r1 r2 : Response) : Py Unit × Bool :=
  wrapVE <|
  preM (sessionReq r1) fun _ =>
  preM (rJson r1) fun r_json =>
  if r1.status = 200 then
    preM (pyLen r_json) fun len =>
    if len > 0 then
      preM (pyIndex r_json 0) fun first =>
      preM (pyGetItem first "_ref") fun network_ref =>
      if pyTruthy network_ref then
        preM (pyStr network_ref) fun _ =>
        postM (sessionReq r2) fun _ =>
        if r2.status = 200 then (.ok (), true)
        else postM (textTail r_json r2.status) fun _ => (.ok (), true)
      else
        (.error (.general (.str
          ("No network reference received in IBA reply for network: " ++
            network))), false)
    else
      (.error (.notFound (.str ("No network found: " ++ network))), false)
  else preM (textTail r_json r1.status) fun _ => (.ok (), false)

/-- `delete_networkcontainer(networkcontainer)`: `r1` answers the lookup
GET, `r2` the DELETE; only truthiness of the reference is checked. -/
def delete_networkcontainer (networkcontainer : String) (r1 r2 : Response) :
    Py Unit × Bool :=
  wrapVE <|
  preM (sessionReq r1) fun _ =>
  preM (rJson r1) fun r_json =>
  if r1.status = 200 then
    preM (pyLen r_json) fun len =>
    if len > 0 then
      preM (pyIndex r_json 0) fun first =>
      preM (pyGetItem first "_ref") fun network_ref =>
      if pyTruthy network_ref then
        preM (pyStr network_ref) fun _ =>
        postM (sessionReq r2) fun _ =>
        if r2.status = 200 then (.ok (), true)
        else postM (textTail r_json r2.status) fun _ => (.ok (), true)
      else
        (.error (.general (.str
          ("No network container reference received in IBA reply for network container: "
            ++ networkcontainer))), false)
    else
      (.error (.notFound (.str ("No network container found: " ++
        networkcontainer))), false)
  else preM (textTail r_json r1.status) fun _ => (.ok (), false)

/-- `get_next_available_network(networkcontainer, cidr)`: `r1` answers the
container lookup GET, `r2` the `next_available_network` function POST. -/
def get_next_available_network (networkcontainer : String) (cidr : Nat)
    (r1 r2 : Response) : Py (Option JSON) × Bool :=
  wrapVE <|
  preM (sessionReq r1) fun _ =>
  preM (rJson r1) fun r_json =>
  if r1.status = 200 then
    preM (pyLen r_json) fun len =>
    if len > 0 then
      preM (pyIndex r_json 0) fun first =>
      preM (pyGetItem first "_ref") fun net_ref =>
      preM (pyStr net_ref) fun _ =>
      postM (sessionReq r2) fun _ =>
      postM (rJson r2) fun r_json2 =>
      if r2.status = 200 then
        postM (pyGetItem r_json2 "networks") fun networks =>
        postM (pyIndex networks 0) fun network => (.ok (some network), true)
      else
        postM (pyIn "text" r_json2) fun b =>
        if b then
          postM (pyIn "code" r_json2) fun hasCode =>
          if hasCode then
            postM (pyGetItem r_json2 "code") fun c =>
            if c == JSON.str "Client.Ibap.Data" then
              postM (pyGetItem r_json2 "text") fun t =>
              (.error (.noNetworkAvailable t), true)
            else
              postM (pyGetItem r_json2 "text") fun t =>
              (.error (.general t), true)
          else
            postM (pyGetItem r_json2 "text") fun t =>
            (.error (.general t), true)
        else
          postM (raiseForStatus r2.status) fun _ => (.ok none, true)
    else
      (.error (.notFound (.str ("No requested network container found: " ++
        networkcontainer))), false)
  else
    preM (textTail r_json r1.status) fun v => (.ok v, false)

/-- `get_fixed_address(ipv4addr, mac, not_found_fail=True)`. -/
def get_fixed_address (ipv4addr mac : String) (not_found_fail : Bool)
    (r : Response) : Py (Option JSON) :=
  Util.get r
    ("Fixed Address not found for IP: " ++ ipv4addr ++ ", MAC: " ++ mac)
    not_found_fail

/-- `delete_fixed_address(ipv4addr, mac, not_found_fail=True)`: `r1`
answers the lookup GET, `r2` the DELETE via `Util.delete_by_ref`.  The
lookup result is subscripted (`ref[0]['_ref']`) unconditionally, so the
`None` sentinel produced by `not_found_fail=False` raises `TypeError`. -/
def delete_fixed_address (ipv4addr mac : String) (not_found_fail : Bool)
    (r1 r2 : Response) : Py (Option JSON) × Bool :=
  match get_fixed_address ipv4addr mac not_found_fail r1 with
  | .error e => (.error e, false)
  | .ok ref =>
    let nfText := "Fixed Address not found for ref: " ++ pyReprOpt ref
    match ref with
    | none => (.error .typeError, false)
    | some j =>
      preM (pyIndex j 0) fun f =>
      preM (pyGetItem f "_ref") fun _r =>
      match Util.delete_by_ref r2 nfText not_found_fail with
      | .error e => (.error e, true)
      | .ok v => (.ok v, true)

end Infoblox

/-- The wire form of an extensible-attribute mapping: every value is
double-wrapped as `{"value": v}` (spec section 3). -/
def wrapAll (eas : List (String × JSON)) : List (String × JSON) :=
  eas.map (fun q => (q.1, JSON.obj [("value", q.2)]))

theorem lookupKey_dictSet_self (fs : List (String × JSON)) (k : String)
    (v : JSON) : lookupKey (dictSet fs k v) k = some v := by
  induction fs with
  | nil => simp [dictSet, lookupKey]
  | cons p rest ih =>
    obtain ⟨a, w⟩ := p
    by_cases h : (a == k) = true
    · simp [dictSet, h, lookupKey]
    · simp [dictSet, h, lookupKey, ih]

theorem lookupKey_dictSet_ne (fs : List (String × JSON)) (k k' : String)
    (v : JSON) (h : k' ≠ k) :
    lookupKey (dictSet fs k v) k' = lookupKey fs k' := by
  have hkk : (k == k') = false := beq_eq_false_iff_ne.mpr (Ne.symm h)
  induction fs with
  | nil => simp [dictSet, lookupKey, hkk]
  | cons p rest ih =>
    obtain ⟨a, w⟩ := p
    by_cases ha : (a == k) = true
    · have : a = k := eq_of_beq ha
      subst this
      simp [dictSet, ha, lookupKey, hkk]
    · simp [dictSet, ha, lookupKey, ih]

theorem lookupKey_append_left_none (l₁ l₂ : List (String × JSON)) (k : String)
    (h : lookupKey l₁ k = none) :
    lookupKey (l₁ ++ l₂) k = lookupKey l₂ k := by
  induction l₁ with
  | nil => rfl
  | cons p rest ih =>
    obtain ⟨a, w⟩ := p
    by_cases ha : (a == k) = true
    · simp [lookupKey, ha] at h
    · simp [lookupKey, ha] at h ⊢
      exact ih h

theorem dictSet_of_none (fs : List (String × JSON)) (k : String) (v : JSON)
    (h : lookupKey fs k = none) : dictSet fs k v = fs ++ [(k, v)] := by
  induction fs with
  | nil => rfl
  | cons p rest ih =>
    obtain ⟨a, w⟩ := p
    by_cases ha : (a == k) = true
    · simp [lookupKey, ha] at h
    · simp [lookupKey, ha] at h
      simp [dictSet, ha, ih h]

theorem lookupKey_wrapAll (eas : List (String × JSON)) (k : String) :
    lookupKey (wrapAll eas) k =
      (lookupKey eas k).map (fun v => JSON.obj [("value", v)]) := by
  induction eas with
  | nil => rfl
  | cons q rest ih =>
    obtain ⟨a, v⟩ := q
    by_cases ha : (a == k) = true
    · simp [wrapAll, lookupKey, ha]
    · simp only [wrapAll, List.map_cons] at ih ⊢
      simp [lookupKey, ha, ih]

theorem mem_dictSet (fs : List (String × JSON)) (k : String) (v : JSON)
    (p : String × JSON) (h : p ∈ dictSet fs k v) : p = (k, v) ∨ p ∈ fs := by
  induction fs with
  | nil => simpa [dictSet] using h
  | cons q rest ih =>
    obtain ⟨a, w⟩ := q
    by_cases ha : (a == k) = true
    · simp [dictSet, ha] at h
      rcases h with h | h
      · exact Or.inl (by simp [h])
      · exact Or.inr (by simp [h])
    · simp [dictSet, ha] at h
      rcases h with h | h
      · exact Or.inr (by simp [h])
      · rcases ih h with h' | h'
        · exact Or.inl h'
        · exact Or.inr (by simp [h'])

theorem any_key_eq_isSome (fs : List (String × JSON)) (k : String) :
    (fs.any (fun p => p.1 == k)) = (lookupKey fs k).isSome := by
  induction fs with
  | nil => rfl
  | cons p rest ih =>
    obtain ⟨a, w⟩ := p
    by_cases ha : (a == k) = true
    · simp [lookupKey, ha]
    · simp [lookupKey, ha, ih]

theorem lookupKey_some_mem (fs : List (String × JSON)) (k : String) (v : JSON)
    (h : lookupKey fs k = some v) : ∃ a, (a, v) ∈ fs := by
  induction fs with
  | nil => simp [lookupKey] at h
  | cons p rest ih =>
    obtain ⟨a, w⟩ := p
    by_cases ha : (a == k) = true
    · simp [lookupKey, ha] at h
      exact ⟨a, by simp [h]⟩
    · simp [lookupKey, ha] at h
      rcases ih h with ⟨a', ha'⟩
      exact ⟨a', by simp [ha']⟩

theorem lookupKey_of_mem_nodup (eas : List (String × JSON))
    (h : (eas.map Prod.fst).Nodup) (q : String × JSON) (hq : q ∈ eas) :
    lookupKey eas q.1 = some q.2 := by
  induction eas with
  | nil => cases hq
  | cons p rest ih =>
    obtain ⟨a, w⟩ := p
    rcases List.mem_cons.mp hq with h' | h'
    · subst h'
      simp [lookupKey]
    · have hne : a ≠ q.1 := by
        intro hEq
        have : q.1 ∈ rest.map Prod.fst := List.mem_map_of_mem Prod.fst h'
        rw [List.map_cons] at h
        exact (List.nodup_cons.mp h).1 (hEq ▸ this)
      simp [lookupKey, beq_eq_false_iff_ne.mpr hne]
      exact ih (by rw [List.map_cons] at h; exact (List.nodup_cons.mp h).2) h'

open Infoblox

theorem collectReq_absent (eas : List (String × JSON)) (attrs : List String) :
    (∃ a ∈ attrs, lookupKey eas a = none) →
    ∀ acc, ∃ a, a ∈ attrs ∧ lookupKey eas a = none ∧
      collectReq (.obj (wrapAll eas)) acc attrs =
        .error (.notFound (.str ("No requested attribute found: " ++ a))) := by
  induction attrs with
  | nil => intro h; simp at h
  | cons a rest ih =>
    intro h acc
    cases hl : lookupKey eas a with
    | none =>
      refine ⟨a, List.mem_cons_self a rest, hl, ?_⟩
      have hw : lookupKey (wrapAll eas) a = none := by
        rw [lookupKey_wrapAll, hl]; rfl
      simp [collectReq, pyIn, any_key_eq_isSome, hw, Bind.bind, Except.bind]
    | some v =>
      have hw : lookupKey (wrapAll eas) a = some (JSON.obj [("value", v)]) := by
        rw [lookupKey_wrapAll, hl]; rfl
      have hrest : ∃ b ∈ rest, lookupKey eas b = none := by
        rcases h with ⟨b, hb, hbl⟩
        rcases List.mem_cons.mp hb with rfl | hb'
        · rw [hl] at hbl; simp at hbl
        · exact ⟨b, hb', hbl⟩
      rcases ih hrest (dictSet acc a v) with ⟨b, hb, hbl, hc⟩
      refine ⟨b, List.mem_cons_of_mem _ hb, hbl, ?_⟩
      simp [collectReq, pyIn, any_key_eq_isSome, hw, pyGetItem, lookupKey, hc, Bind.bind, Except.bind]

theorem collectReq_ok (eas : List (String × JSON)) (attrs : List String) :
    (∀ a ∈ attrs, (lookupKey eas a).isSome) →
    ∀ acc, ∃ m, collectReq (.obj (wrapAll eas)) acc attrs = .ok m := by
  induction attrs with
  | nil => intro _ acc; exact ⟨acc, rfl⟩
  | cons a rest ih =>
    intro h acc
    cases hl : lookupKey eas a with
    | none =>
      have := h a (List.mem_cons_self a rest)
      rw [hl] at this; simp at this
    | some v =>
      have hw : lookupKey (wrapAll eas) a = some (JSON.obj [("value", v)]) := by
        rw [lookupKey_wrapAll, hl]; rfl
      rcases ih (fun b hb => h b (List.mem_cons_of_mem _ hb))
        (dictSet acc a v) with ⟨m, hm⟩
      exact ⟨m, by
        simp [collectReq, pyIn, any_key_eq_isSome, hw, pyGetItem, lookupKey, hm, Bind.bind, Except.bind]⟩

theorem goKeys_append (fs : List (String × JSON)) (sub : List (String × JSON)) :
    ∀ acc : List (String × JSON),
      (∀ q ∈ sub, lookupKey fs q.1 = some (JSON.obj [("value", q.2)])) →
      (∀ q ∈ sub, lookupKey acc q.1 = none) →
      (sub.map Prod.fst).Nodup →
      goKeys (.obj fs) acc (sub.map Prod.fst) = .ok (acc ++ sub) := by
  induction sub with
  | nil => intro acc _ _ _; simp [goKeys]
  | cons q rest ih =>
    obtain ⟨k, v⟩ := q
    intro acc hfs hacc hnd
    have h1 : lookupKey fs k = some (.obj [("value", v)]) :=
      hfs (k, v) (List.mem_cons_self (k, v) rest)
    have h2 : lookupKey acc k = none :=
      hacc (k, v) (List.mem_cons_self (k, v) rest)
    have hset : dictSet acc k v = acc ++ [(k, v)] := dictSet_of_none _ _ _ h2
    rw [List.map_cons] at hnd ⊢
    have hacc' : ∀ q ∈ rest, lookupKey (acc ++ [(k, v)]) q.1 = none := by
      intro q hq
      have hq1 : q.1 ≠ k := by
        intro hEq
        have : q.1 ∈ rest.map Prod.fst := List.mem_map_of_mem Prod.fst hq
        exact (List.nodup_cons.mp hnd).1 (hEq ▸ this)
      rw [lookupKey_append_left_none _ _ _ (hacc q (List.mem_cons_of_mem _ hq))]
      simp [lookupKey, beq_eq_false_iff_ne.mpr (Ne.symm hq1)]
    have ih' := ih (acc ++ [(k, v)]) (fun q hq => hfs q (List.mem_cons_of_mem _ hq))
      hacc' (List.nodup_cons.mp hnd).2
    simp [goKeys, pyGetItem, h1, lookupKey, hset, ih', Bind.bind, Except.bind,
      List.append_assoc, List.singleton_append]

theorem updLoop_absent (attrs : List (String × JSON)) :
    ∀ fs : List (String × JSON),
      (∀ p ∈ fs, ∃ w, p.2 = JSON.obj w) →
      (∃ q ∈ attrs, lookupKey fs q.1 = none) →
      ∃ k, lookupKey fs k = none ∧
        updLoop (.obj fs) attrs = .error (.keyError k) := by
  induction attrs with
  | nil => intro fs _ h; simp at h
  | cons q rest ih =>
    obtain ⟨k₀, v₀⟩ := q
    intro fs hobj h
    cases hl : lookupKey fs k₀ with
    | none =>
      exact ⟨k₀, hl, by simp [updLoop, pyGetItem, hl]⟩
    | some w =>
      rcases lookupKey_some_mem fs k₀ w hl with ⟨a, ha⟩
      rcases hobj (a, w) ha with ⟨wf, hwf⟩
      simp only at hwf
      subst hwf
      have hrest : ∃ q ∈ rest,
          lookupKey (dictSet fs k₀ (JSON.obj (dictSet wf "value" v₀))) q.1 = none := by
        rcases h with ⟨q, hq, hql⟩
        rcases List.mem_cons.mp hq with rfl | hq'
        · rw [hl] at hql; simp at hql
        · refine ⟨q, hq', ?_⟩
          have hne : q.1 ≠ k₀ := by
            intro hEq; rw [hEq, hl] at hql; simp at hql
          rw [lookupKey_dictSet_ne _ _ _ _ hne]; exact hql
      have hobj' : ∀ p ∈ dictSet fs k₀ (JSON.obj (dictSet wf "value" v₀)),
          ∃ w, p.2 = JSON.obj w := by
        intro p hp
        rcases mem_dictSet _ _ _ _ hp with rfl | hp'
        · exact ⟨dictSet wf "value" v₀, rfl⟩
        · exact hobj p hp'
      rcases ih _ hobj' hrest with ⟨k, hk, hkc⟩
      have hkfs : lookupKey fs k = none := by
        by_cases hkk : k = k₀
        · subst hkk; rw [lookupKey_dictSet_self] at hk; simp at hk
        · rw [lookupKey_dictSet_ne _ _ _ _ hkk] at hk; exact hk
      refine ⟨k, hkfs, ?_⟩
      simp [updLoop, pyGetItem, hl, hkc]

theorem wrapVE_snd {α : Type} (x : Py α × Bool) : (wrapVE x).2 = x.2 := by
  rcases x with ⟨x1, b⟩
  cases x1 with
  | error e => cases e <;> rfl
  | ok v => rfl

theorem postM_snd_true {β α : Type} (x : Py β) (k : β → Py α × Bool)
    (h : ∀ b, (k b).2 = true) : (postM x k).2 = true := by
  cases x with
  | error e => rfl
  | ok b => exact h b

/-- C1 counterexample: `delete_network` does not validate the returned
reference against the requested network.  The lookup returns a reference
whose embedded identity is `192.168.0.0` while the requested network is
`10.0.0.0/8`, yet no `General` error is raised and the DELETE is issued
(second component `true`). -/
theorem c1_counterexample :
    refName "network/" "network/AbCd:192.168.0.0/default" =
      some "192.168.0.0" ∧
    "192.168.0.0" ≠ "10.0.0.0/8" ∧
    Infoblox.delete_network "10.0.0.0/8"
      ⟨200, some (.arr [.obj
        [("_ref", .str "network/AbCd:192.168.0.0/default")]])⟩
      ⟨200, some (.arr [])⟩ = (.ok (), true) :=
  ⟨rfl, by decide, rfl⟩

/-- C1 (amended): only the five name-keyed record operations
(`delete_host_record`, `delete_txt_record`, `add_host_alias`,
`delete_host_alias`, `delete_cname_record`) validate the returned
reference: when the reference parses but its embedded name differs from
the requested FQDN, `General` is raised and the mutate is never issued.
The network-side operations (`delete_network`, `delete_networkcontainer`,
`delete_dhcp_range`, `update_network_extattrs`,
`delete_network_extattrs`) only check the reference for truthiness and
issue the mutate (second component `true`) regardless of the embedded
identity. -/
theorem c1_theorem :
    (∀ (fqdn s g : String) (fs : List (String × JSON)) (rest : List JSON)
      (r2 : Response),
      lookupKey fs "_ref" = some (.str s) → s ≠ "" →
      refName "record:host/" s = some g → g ≠ fqdn →
      Infoblox.delete_host_record fqdn ⟨200, some (.arr (.obj fs :: rest))⟩
        r2 =
      (.error (.general (.str ("Received unexpected host reference: " ++ s))),
       false)) ∧
    (∀ (fqdn s g : String) (fs : List (String × JSON)) (rest : List JSON)
      (r2 : Response),
      lookupKey fs "_ref" = some (.str s) → s ≠ "" →
      refName "record:txt/" s = some g → g ≠ fqdn →
      Infoblox.delete_txt_record fqdn ⟨200, some (.arr (.obj fs :: rest))⟩
        r2 =
      (.error (.general (.str ("Received unexpected host reference: " ++ s))),
       false)) ∧
    (∀ (host_fqdn alias_fqdn s g : String) (fs : List (String × JSON))
      (rest : List JSON) (r2 : Response),
      lookupKey fs "_ref" = some (.str s) → s ≠ "" →
      refName "record:host/" s = some g → g ≠ host_fqdn →
      Infoblox.add_host_alias host_fqdn alias_fqdn
        ⟨200, some (.arr (.obj fs :: rest))⟩ r2 =
      (.error (.general (.str ("Received unexpected host reference: " ++ s))),
       false)) ∧
    (∀ (host_fqdn alias_fqdn s g : String) (fs : List (String × JSON))
      (rest : List JSON) (r2 : Response),
      lookupKey fs "_ref" = some (.str s) → s ≠ "" →
      refName "record:host/" s = some g → g ≠ host_fqdn →
      Infoblox.delete_host_alias host_fqdn alias_fqdn
        ⟨200, some (.arr (.obj fs :: rest))⟩ r2 =
      (.error (.general (.str ("Received unexpected host reference: " ++ s))),
       false)) ∧
    (∀ (fqdn s g : String) (fs : List (String × JSON)) (rest : List JSON)
      (r2 : Response),
      lookupKey fs "_ref" = some (.str s) → s ≠ "" →
      refName "record:cname/" s = some g → g ≠ fqdn →
      Infoblox.delete_cname_record fqdn ⟨200, some (.arr (.obj fs :: rest))⟩
        r2 =
      (.error (.general
        (.str ("Received unexpected cname record  reference: " ++ s))),
       false)) ∧
    (∀ (network s g : String) (fs : List (String × JSON)) (rest : List JSON)
      (r2 : Response),
      lookupKey fs "_ref" = some (.str s) → s ≠ "" →
      refName "network/" s = some g → g ≠ network →
      (Infoblox.delete_network network ⟨200, some (.arr (.obj fs :: rest))⟩
        r2).2 = true) ∧
    (∀ (networkcontainer s g : String) (fs : List (String × JSON))
      (rest : List JSON) (r2 : Response),
      lookupKey fs "_ref" = some (.str s) → s ≠ "" →
      refName "networkcontainer/" s = some g → g ≠ networkcontainer →
      (Infoblox.delete_networkcontainer networkcontainer
        ⟨200, some (.arr (.obj fs :: rest))⟩ r2).2 = true) ∧
    (∀ (start_addr end_addr s g : String) (fs : List (String × JSON))
      (rest : List JSON) (r2 : Response),
      lookupKey fs "_ref" = some (.str s) → s ≠ "" →
      refName "range/" s = some g → g ≠ start_addr ++ "-" ++ end_addr →
      (Infoblox.delete_dhcp_range start_addr end_addr
        ⟨200, some (.arr (.obj fs :: rest))⟩ r2).2 = true) ∧
    (∀ (network s g : String) (ea : JSON) (fs : List (String × JSON))
      (rest : List JSON) (r2 : Response),
      lookupKey fs "_ref" = some (.str s) → s ≠ "" →
      lookupKey fs "extattrs" = some ea →
      refName "network/" s = some g → g ≠ network →
      (Infoblox.update_network_extattrs network []
        ⟨200, some (.arr (.obj fs :: rest))⟩ r2).2 = true) ∧
    (∀ (network s g : String) (ea : JSON) (fs : List (String × JSON))
      (rest : List JSON) (r2 : Response),
      lookupKey fs "_ref" = some (.str s) → s ≠ "" →
      lookupKey fs "extattrs" = some ea →
      refName "network/" s = some g → g ≠ network →
      (Infoblox.delete_network_extattrs network []
        ⟨200, some (.arr (.obj fs :: rest))⟩ r2).2 = true) := by
  refine ⟨?_, ?_, ?_, ?_, ?_, ?_, ?_, ?_, ?_, ?_⟩
  · intro fqdn s g fs rest r2 href hs hg hne
    simp [Infoblox.delete_host_record, sessionReq, rJson, preM, pyLen,
      pyIndex, pyGetItem, href, refGuard, pyTruthy, bne,
      beq_eq_false_iff_ne.mpr hs, hg, beq_eq_false_iff_ne.mpr hne,
      refMismatch, wrapVE]
  · intro fqdn s g fs rest r2 href hs hg hne
    simp [Infoblox.delete_txt_record, sessionReq, rJson, preM, pyLen,
      pyIndex, pyGetItem, href, refGuard, pyTruthy, bne,
      beq_eq_false_iff_ne.mpr hs, hg, beq_eq_false_iff_ne.mpr hne,
      refMismatch, wrapVE]
  · intro host_fqdn alias_fqdn s g fs rest r2 href hs hg hne
    simp [Infoblox.add_host_alias, sessionReq, rJson, preM, pyLen,
      pyIndex, pyGetItem, href, refGuard, pyTruthy, bne,
      beq_eq_false_iff_ne.mpr hs, hg, beq_eq_false_iff_ne.mpr hne,
      refMismatch, wrapVE]
  · intro host_fqdn alias_fqdn s g fs rest r2 href hs hg hne
    simp [Infoblox.delete_host_alias, sessionReq, rJson, preM, pyLen,
      pyIndex, pyGetItem, href, refGuard, pyTruthy, bne,
      beq_eq_false_iff_ne.mpr hs, hg, beq_eq_false_iff_ne.mpr hne,
      refMismatch, wrapVE]
  · intro fqdn s g fs rest r2 href hs hg hne
    simp [Infoblox.delete_cname_record, sessionReq, rJson, preM, pyLen,
      pyIndex, pyGetItem, href, refGuard, pyTruthy, bne,
      beq_eq_false_iff_ne.mpr hs, hg, beq_eq_false_iff_ne.mpr hne,
      refMismatch, wrapVE]
  · intro network s g fs rest r2 href hs _hg _hne
    simp [Infoblox.delete_network, sessionReq, rJson, preM, pyLen, pyIndex,
      pyGetItem, href, pyTruthy, bne, beq_eq_false_iff_ne.mpr hs, pyStr,
      wrapVE_snd]
    apply postM_snd_true
    intro _
    split
    · rfl
    · exact postM_snd_true _ _ (fun _ => rfl)
  · intro networkcontainer s g fs rest r2 href hs _hg _hne
    simp [Infoblox.delete_networkcontainer, sessionReq, rJson, preM, pyLen,
      pyIndex, pyGetItem, href, pyTruthy, bne, beq_eq_false_iff_ne.mpr hs,
      pyStr, wrapVE_snd]
    apply postM_snd_true
    intro _
    split
    · rfl
    · exact postM_snd_true _ _ (fun _ => rfl)
  · intro start_addr end_addr s g fs rest r2 href hs _hg _hne
    simp [Infoblox.delete_dhcp_range, sessionReq, rJson, preM, pyLen,
      pyIndex, pyGetItem, href, pyTruthy, bne, beq_eq_false_iff_ne.mpr hs,
      pyStr, wrapVE_snd]
    apply postM_snd_true
    intro _
    split
    · rfl
    · exact postM_snd_true _ _ (fun _ => rfl)
  · intro network s g ea fs rest r2 href hs hea _hg _hne
    simp [Infoblox.update_network_extattrs, sessionReq, rJson, preM, pyLen,
      pyIndex, pyGetItem, href, hea, pyTruthy, bne,
      beq_eq_false_iff_ne.mpr hs, pyStr, Infoblox.updLoop, wrapVE_snd]
    apply postM_snd_true
    intro _
    split
    · rfl
    · exact postM_snd_true _ _ (fun _ => rfl)
  · intro network s g ea fs rest r2 href hs hea _hg _hne
    simp [Infoblox.delete_network_extattrs, sessionReq, rJson, preM, pyLen,
      pyIndex, pyGetItem, href, hea, pyTruthy, bne,
      beq_eq_false_iff_ne.mpr hs, pyStr, Infoblox.delLoop, wrapVE_snd]
    apply postM_snd_true
    intro _
    split
    · rfl
    · exact postM_snd_true _ _ (fun _ => rfl)

/-- C1 witness: each conjunct of `c1_theorem` instantiated at concrete
inputs with every hypothesis discharged. -/
theorem c1_witness :
    (Infoblox.delete_host_record "a.example.com"
      ⟨200, some (.arr [.obj
        [("_ref", .str "record:host/ZG5z:b.example.com/default")]])⟩
      ⟨200, some (.arr [])⟩ =
      (.error (.general (.str
        "Received unexpected host reference: record:host/ZG5z:b.example.com/default")),
       false)) ∧
    (Infoblox.delete_txt_record "a.example.com"
      ⟨200, some (.arr [.obj
        [("_ref", .str "record:txt/ZG5z:b.example.com/default")]])⟩
      ⟨200, some (.arr [])⟩ =
      (.error (.general (.str
        "Received unexpected host reference: record:txt/ZG5z:b.example.com/default")),
       false)) ∧
    (Infoblox.add_host_alias "a.example.com" "al.example.com"
      ⟨200, some (.arr [.obj
        [("_ref", .str "record:host/ZG5z:b.example.com/default")]])⟩
      ⟨200, some (.arr [])⟩ =
      (.error (.general (.str
        "Received unexpected host reference: record:host/ZG5z:b.example.com/default")),
       false)) ∧
    (Infoblox.delete_host_alias "a.example.com" "al.example.com"
      ⟨200, some (.arr [.obj
        [("_ref", .str "record:host/ZG5z:b.example.com/default")]])⟩
      ⟨200, some (.arr [])⟩ =
      (.error (.general (.str
        "Received unexpected host reference: record:host/ZG5z:b.example.com/default")),
       false)) ∧
    (Infoblox.delete_cname_record "a.example.com"
      ⟨200, some (.arr [.obj
        [("_ref", .str "record:cname/ZG5z:b.example.com/default")]])⟩
      ⟨200, some (.arr [])⟩ =
      (.error (.general (.str
        "Received unexpected cname record  reference: record:cname/ZG5z:b.example.com/default")),
       false)) ∧
    ((Infoblox.delete_network "10.1.0.0/16"
      ⟨200, some (.arr [.obj
        [("_ref", .str "network/QwEr:172.16.0.0/default")]])⟩
      ⟨200, some (.arr [])⟩).2 = true) ∧
    ((Infoblox.delete_networkcontainer "10.2.0.0/16"
      ⟨200, some (.arr [.obj
        [("_ref", .str "networkcontainer/QwEr:172.17.0.0/default")]])⟩
      ⟨200, some (.arr [])⟩).2 = true) ∧
    ((Infoblox.delete_dhcp_range "10.0.0.10" "10.0.0.20"
      ⟨200, some (.arr [.obj
        [("_ref", .str "range/QwEr:172.18.0.1/default")]])⟩
      ⟨200, some (.arr [])⟩).2 = true) ∧
    ((Infoblox.update_network_extattrs "10.3.0.0/16" []
      ⟨200, some (.arr [.obj
        [("_ref", .str "network/QwEr:172.19.0.0/default"),
         ("extattrs", .obj [])]])⟩
      ⟨200, some (.arr [])⟩).2 = true) ∧
    ((Infoblox.delete_network_extattrs "10.4.0.0/16" []
      ⟨200, some (.arr [.obj
        [("_ref", .str "network/QwEr:172.20.0.0/default"),
         ("extattrs", .obj [])]])⟩
      ⟨200, some (.arr [])⟩).2 = true) :=
  ⟨c1_theorem.1 "a.example.com" "record:host/ZG5z:b.example.com/default"
      "b.example.com" [("_ref", .str "record:host/ZG5z:b.example.com/default")]
      [] ⟨200, some (.arr [])⟩ rfl (by decide) rfl (by decide),
   c1_theorem.2.1 "a.example.com" "record:txt/ZG5z:b.example.com/default"
      "b.example.com" [("_ref", .str "record:txt/ZG5z:b.example.com/default")]
      [] ⟨200, some (.arr [])⟩ rfl (by decide) rfl (by decide),
   c1_theorem.2.2.1 "a.example.com" "al.example.com"
      "record:host/ZG5z:b.example.com/default" "b.example.com"
      [("_ref", .str "record:host/ZG5z:b.example.com/default")]
      [] ⟨200, some (.arr [])⟩ rfl (by decide) rfl (by decide),
   c1_theorem.2.2.2.1 "a.example.com" "al.example.com"
      "record:host/ZG5z:b.example.com/default" "b.example.com"
      [("_ref", .str "record:host/ZG5z:b.example.com/default")]
      [] ⟨200, some (.arr [])⟩ rfl (by decide) rfl (by decide),
   c1_theorem.2.2.2.2.1 "a.example.com"
      "record:cname/ZG5z:b.example.com/default" "b.example.com"
      [("_ref", .str "record:cname/ZG5z:b.example.com/default")]
      [] ⟨200, some (.arr [])⟩ rfl (by decide) rfl (by decide),
   c1_theorem.2.2.2.2.2.1 "10.1.0.0/16" "network/QwEr:172.16.0.0/default"
      "172.16.0.0" [("_ref", .str "network/QwEr:172.16.0.0/default")]
      [] ⟨200, some (.arr [])⟩ rfl (by decide) rfl (by decide),
   c1_theorem.2.2.2.2.2.2.1 "10.2.0.0/16"
      "networkcontainer/QwEr:172.17.0.0/default" "172.17.0.0"
      [("_ref", .str "networkcontainer/QwEr:172.17.0.0/default")]
      [] ⟨200, some (.arr [])⟩ rfl (by decide) rfl (by decide),
   c1_theorem.2.2.2.2.2.2.2.1 "10.0.0.10" "10.0.0.20"
      "range/QwEr:172.18.0.1/default" "172.18.0.1"
      [("_ref", .str "range/QwEr:172.18.0.1/default")]
      [] ⟨200, some (.arr [])⟩ rfl (by decide) rfl (by decide),
   c1_theorem.2.2.2.2.2.2.2.2.1 "10.3.0.0/16"
      "network/QwEr:172.19.0.0/default" "172.19.0.0" (.obj [])
      [("_ref", .str "network/QwEr:172.19.0.0/default"),
       ("extattrs", .obj [])]
      [] ⟨200, some (.arr [])⟩ rfl (by decide) rfl rfl (by decide),
   c1_theorem.2.2.2.2.2.2.2.2.2 "10.4.0.0/16"
      "network/QwEr:172.20.0.0/default" "172.20.0.0" (.obj [])
      [("_ref", .str "network/QwEr:172.20.0.0/default"),
       ("extattrs", .obj [])]
      [] ⟨200, some (.arr [])⟩ rfl (by decide) rfl rfl (by decide)⟩

/-- C2 counterexample: `delete_fixed_address` is a lookup-then-mutate
operation taking the opt-out flag, but with `not_found_fail=False` and a
lookup that succeeds with zero matches it raises `TypeError` (the `None`
sentinel is subscripted by `ref[0]`), rather than returning the absence
sentinel. -/
theorem c2_counterexample :
    Infoblox.delete_fixed_address "10.0.0.5" "00:1a:2b:3c:4d:5e" false
      ⟨200, some (.arr [])⟩ ⟨200, some (.arr [])⟩ =
      (.error .typeError, false) ∧
    ((.error .typeError : Py (Option JSON)), false) ≠
      ((.ok none : Py (Option JSON)), false) :=
  ⟨rfl, by simp⟩

/-- C2 (amended): for every lookup-then-mutate operation, a lookup that
succeeds (HTTP 200) with zero matches means the mutate call is never
issued (second component `false`) and `NotFound` is raised; the one such
operation taking the opt-out flag, `delete_fixed_address`, raises
`NotFound` with the flag unset but raises `TypeError` (instead of
returning the absence sentinel) with the flag set. -/
theorem c2_theorem :
    (∀ (fqdn : String) (r2 : Response),
      Infoblox.delete_host_record fqdn ⟨200, some (.arr [])⟩ r2 =
        (.error (.notFound (.str ("No requested host found: " ++ fqdn))),
         false)) ∧
    (∀ (fqdn : String) (r2 : Response),
      Infoblox.delete_txt_record fqdn ⟨200, some (.arr [])⟩ r2 =
        (.error (.notFound (.str ("No requested host found: " ++ fqdn))),
         false)) ∧
    (∀ (host_fqdn alias_fqdn : String) (r2 : Response),
      Infoblox.add_host_alias host_fqdn alias_fqdn ⟨200, some (.arr [])⟩ r2 =
        (.error (.notFound (.str ("No requested host found: " ++ host_fqdn))),
         false)) ∧
    (∀ (host_fqdn alias_fqdn : String) (r2 : Response),
      Infoblox.delete_host_alias host_fqdn alias_fqdn
        ⟨200, some (.arr [])⟩ r2 =
        (.error (.notFound (.str ("No requested host found: " ++ host_fqdn))),
         false)) ∧
    (∀ (fqdn : String) (r2 : Response),
      Infoblox.delete_cname_record fqdn ⟨200, some (.arr [])⟩ r2 =
        (.error (.notFound
          (.str ("No requested cname record found: " ++ fqdn))), false)) ∧
    (∀ (canonical name : String) (r2 : Response),
      Infoblox.update_cname_record canonical name ⟨200, some (.arr [])⟩ r2 =
        (.error (.notFound (.str ("CNAME: " ++ name ++ " not found."))),
         false)) ∧
    (∀ (start_addr end_addr : String) (r2 : Response),
      Infoblox.delete_dhcp_range start_addr end_addr
        ⟨200, some (.arr [])⟩ r2 =
        (.error (.notFound (.str ("No requested range found: " ++ start_addr ++
          "-" ++ end_addr))), false)) ∧
    (∀ (network : String) (r2 : Response),
      Infoblox.delete_network network ⟨200, some (.arr [])⟩ r2 =
        (.error (.notFound (.str ("No network found: " ++ network))), false)) ∧
    (∀ (networkcontainer : String) (r2 : Response),
      Infoblox.delete_networkcontainer networkcontainer
        ⟨200, some (.arr [])⟩ r2 =
        (.error (.notFound (.str ("No network container found: " ++
          networkcontainer))), false)) ∧
    (∀ (network : String) (attrs : List (String × JSON)) (r2 : Response),
      Infoblox.update_network_extattrs network attrs
        ⟨200, some (.arr [])⟩ r2 =
        (.error (.notFound (.str ("No requested network found: " ++ network))),
         false)) ∧
    (∀ (network : String) (attrs : List String) (r2 : Response),
      Infoblox.delete_network_extattrs network attrs
        ⟨200, some (.arr [])⟩ r2 =
        (.error (.notFound (.str ("No requested network found: " ++ network))),
         false)) ∧
    (∀ (ipv4addr mac : String) (r2 : Response),
      Infoblox.delete_fixed_address ipv4addr mac true
        ⟨200, some (.arr [])⟩ r2 =
        (.error (.notFound (.str ("Fixed Address not found for IP: " ++
          ipv4addr ++ ", MAC: " ++ mac))), false)) ∧
    (∀ (ipv4addr mac : String) (r2 : Response),
      Infoblox.delete_fixed_address ipv4addr mac false
        ⟨200, some (.arr [])⟩ r2 = (.error .typeError, false)) := by
  refine ⟨?_, ?_, ?_, ?_, ?_, ?_, ?_, ?_, ?_, ?_, ?_, ?_, ?_⟩ <;>
    intros <;> rfl

theorem json_str_beq_self (s : String) :
    (JSON.str s == JSON.str s) = true := by
  show JSON.beq (.str s) (.str s) = true
  simp [JSON.beq]

/-- C3 counterexample: a genuinely failing function call (HTTP 400) whose
body carries `code == "Client.Ibap.Data"` does not raise the exhaustion
error: `Session.request` raises the HTTP error before the body is
inspected, so both allocation operations surface `HTTPError` instead of
`NoIPAvailable`/`NoNetworkAvailable`. -/
theorem c3_counterexample :
    Infoblox.get_next_available_ip "10.0.0.0/24"
      ⟨200, some (.arr [.obj
        [("_ref", .str "network/AbCd:10.0.0.0/default")]])⟩
      ⟨400, some (.obj [("text", .str "Cannot find 1 available IP address"),
                        ("code", .str "Client.Ibap.Data")])⟩ =
      (.error (.httpError 400), true) ∧
    Infoblox.get_next_available_network "10.0.0.0/16" 24
      ⟨200, some (.arr [.obj
        [("_ref", .str "networkcontainer/AbCd:10.0.0.0/default")]])⟩
      ⟨400, some (.obj [("text", .str "Cannot find 1 available network"),
                        ("code", .str "Client.Ibap.Data")])⟩ =
      (.error (.httpError 400), true) :=
  ⟨rfl, rfl⟩

/-- C3 (amended): when the parent object is found and the allocation call
returns HTTP 200, exactly the first element of the `ips` / `networks`
array is returned.  The distinct exhaustion error
(`NoIPAvailable` / `NoNetworkAvailable`) is raised only when the function
call returns a non-200 status below 400 with `code == "Client.Ibap.Data"`
in the body; a 4xx/5xx function-call failure is raised as the transport's
`HTTPError` before the body is inspected. -/
theorem c3_theorem :
    (∀ (network s : String) (fs : List (String × JSON)) (rest : List JSON)
      (g : List (String × JSON)) (ip : JSON) (ips : List JSON),
      lookupKey fs "_ref" = some (.str s) →
      lookupKey g "ips" = some (.arr (ip :: ips)) →
      Infoblox.get_next_available_ip network
        ⟨200, some (.arr (.obj fs :: rest))⟩ ⟨200, some (.obj g)⟩ =
        (.ok (some ip), true)) ∧
    (∀ (network s : String) (fs : List (String × JSON)) (rest : List JSON)
      (g : List (String × JSON)) (st : Nat) (t : JSON),
      st ≠ 200 → st < 400 →
      lookupKey fs "_ref" = some (.str s) →
      lookupKey g "text" = some t →
      lookupKey g "code" = some (.str "Client.Ibap.Data") →
      Infoblox.get_next_available_ip network
        ⟨200, some (.arr (.obj fs :: rest))⟩ ⟨st, some (.obj g)⟩ =
        (.error (.noIPAvailable t), true)) ∧
    (∀ (network s : String) (fs : List (String × JSON)) (rest : List JSON)
      (st : Nat) (body : Option JSON),
      400 ≤ st → st < 600 →
      lookupKey fs "_ref" = some (.str s) →
      Infoblox.get_next_available_ip network
        ⟨200, some (.arr (.obj fs :: rest))⟩ ⟨st, body⟩ =
        (.error (.httpError st), true)) ∧
    (∀ (networkcontainer s : String) (cidr : Nat)
      (fs : List (String × JSON)) (rest : List JSON)
      (g : List (String × JSON)) (net : JSON) (nets : List JSON),
      lookupKey fs "_ref" = some (.str s) →
      lookupKey g "networks" = some (.arr (net :: nets)) →
      Infoblox.get_next_available_network networkcontainer cidr
        ⟨200, some (.arr (.obj fs :: rest))⟩ ⟨200, some (.obj g)⟩ =
        (.ok (some net), true)) ∧
    (∀ (networkcontainer s : String) (cidr : Nat)
      (fs : List (String × JSON)) (rest : List JSON)
      (g : List (String × JSON)) (st : Nat) (t : JSON),
      st ≠ 200 → st < 400 →
      lookupKey fs "_ref" = some (.str s) →
      lookupKey g "text" = some t →
      lookupKey g "code" = some (.str "Client.Ibap.Data") →
      Infoblox.get_next_available_network networkcontainer cidr
        ⟨200, some (.arr (.obj fs :: rest))⟩ ⟨st, some (.obj g)⟩ =
        (.error (.noNetworkAvailable t), true)) ∧
    (∀ (networkcontainer s : String) (cidr : Nat)
      (fs : List (String × JSON)) (rest : List JSON)
      (st : Nat) (body : Option JSON),
      400 ≤ st → st < 600 →
      lookupKey fs "_ref" = some (.str s) →
      Infoblox.get_next_available_network networkcontainer cidr
        ⟨200, some (.arr (.obj fs :: rest))⟩ ⟨st, body⟩ =
        (.error (.httpError st), true)) := by
  refine ⟨?_, ?_, ?_, ?_, ?_, ?_⟩
  · intro network s fs rest g ip ips href hips
    simp [Infoblox.get_next_available_ip, sessionReq, rJson, preM, postM,
      pyLen, pyIndex, pyGetItem, href, hips, pyStr, wrapVE]
  · intro network s fs rest g st t hst1 hst2 href ht hc
    have hnot : ¬(400 ≤ st ∧ st < 600) :=
      fun h => absurd hst2 (Nat.not_lt.mpr h.1)
    simp [Infoblox.get_next_available_ip, sessionReq, hnot, rJson, preM,
      postM, pyLen, pyIndex, pyGetItem, href, hst1, ht, hc, pyStr, pyIn,
      any_key_eq_isSome, json_str_beq_self, wrapVE]
  · intro network s fs rest st body h1 h2 href
    have hst : 400 ≤ st ∧ st < 600 := ⟨h1, h2⟩
    simp [Infoblox.get_next_available_ip, sessionReq, hst, rJson, preM,
      postM, pyLen, pyIndex, pyGetItem, href, pyStr, wrapVE]
  · intro networkcontainer s cidr fs rest g net nets href hnets
    simp [Infoblox.get_next_available_network, sessionReq, rJson, preM,
      postM, pyLen, pyIndex, pyGetItem, href, hnets, pyStr, wrapVE]
  · intro networkcontainer s cidr fs rest g st t hst1 hst2 href ht hc
    have hnot : ¬(400 ≤ st ∧ st < 600) :=
      fun h => absurd hst2 (Nat.not_lt.mpr h.1)
    simp [Infoblox.get_next_available_network, sessionReq, hnot, rJson, preM,
      postM, pyLen, pyIndex, pyGetItem, href, hst1, ht, hc, pyStr, pyIn,
      any_key_eq_isSome, json_str_beq_self, wrapVE]
  · intro networkcontainer s cidr fs rest st body h1 h2 href
    have hst : 400 ≤ st ∧ st < 600 := ⟨h1, h2⟩
    simp [Infoblox.get_next_available_network, sessionReq, hst, rJson, preM,
      postM, pyLen, pyIndex, pyGetItem, href, pyStr, wrapVE]

/-- C3 witness: each conjunct of `c3_theorem` instantiated at concrete
inputs with every hypothesis discharged. -/
theorem c3_witness :
    (Infoblox.get_next_available_ip "10.0.0.0/24"
      ⟨200, some (.arr [.obj
        [("_ref", .str "network/AbCd:10.0.0.0/default")]])⟩
      ⟨200, some (.obj [("ips", .arr [.str "10.0.0.1", .str "10.0.0.2"])])⟩ =
      (.ok (some (.str "10.0.0.1")), true)) ∧
    (Infoblox.get_next_available_ip "10.0.0.0/24"
      ⟨200, some (.arr [.obj
        [("_ref", .str "network/AbCd:10.0.0.0/default")]])⟩
      ⟨201, some (.obj [("text", .str "exhausted"),
                        ("code", .str "Client.Ibap.Data")])⟩ =
      (.error (.noIPAvailable (.str "exhausted")), true)) ∧
    (Infoblox.get_next_available_ip "10.0.0.0/24"
      ⟨200, some (.arr [.obj
        [("_ref", .str "network/AbCd:10.0.0.0/default")]])⟩
      ⟨404, none⟩ = (.error (.httpError 404), true)) ∧
    (Infoblox.get_next_available_network "10.0.0.0/16" 24
      ⟨200, some (.arr [.obj
        [("_ref", .str "networkcontainer/AbCd:10.0.0.0/default")]])⟩
      ⟨200, some (.obj [("networks", .arr [.str "10.0.1.0/24"])])⟩ =
      (.ok (some (.str "10.0.1.0/24")), true)) ∧
    (Infoblox.get_next_available_network "10.0.0.0/16" 24
      ⟨200, some (.arr [.obj
        [("_ref", .str "networkcontainer/AbCd:10.0.0.0/default")]])⟩
      ⟨201, some (.obj [("text", .str "exhausted"),
                        ("code", .str "Client.Ibap.Data")])⟩ =
      (.error (.noNetworkAvailable (.str "exhausted")), true)) ∧
    (Infoblox.get_next_available_network "10.0.0.0/16" 24
      ⟨200, some (.arr [.obj
        [("_ref", .str "networkcontainer/AbCd:10.0.0.0/default")]])⟩
      ⟨500, none⟩ = (.error (.httpError 500), true)) :=
  ⟨c3_theorem.1 "10.0.0.0/24" "network/AbCd:10.0.0.0/default"
      [("_ref", .str "network/AbCd:10.0.0.0/default")] []
      [("ips", .arr [.str "10.0.0.1", .str "10.0.0.2"])]
      (.str "10.0.0.1") [.str "10.0.0.2"] rfl rfl,
   c3_theorem.2.1 "10.0.0.0/24" "network/AbCd:10.0.0.0/default"
      [("_ref", .str "network/AbCd:10.0.0.0/default")] []
      [("text", .str "exhausted"), ("code", .str "Client.Ibap.Data")]
      201 (.str "exhausted") (by decide) (by decide) rfl rfl rfl,
   c3_theorem.2.2.1 "10.0.0.0/24" "network/AbCd:10.0.0.0/default"
      [("_ref", .str "network/AbCd:10.0.0.0/default")] [] 404 none
      (by decide) (by decide) rfl,
   c3_theorem.2.2.2.1 "10.0.0.0/16" "networkcontainer/AbCd:10.0.0.0/default"
      24 [("_ref", .str "networkcontainer/AbCd:10.0.0.0/default")] []
      [("networks", .arr [.str "10.0.1.0/24"])] (.str "10.0.1.0/24") []
      rfl rfl,
   c3_theorem.2.2.2.2.1 "10.0.0.0/16"
      "networkcontainer/AbCd:10.0.0.0/default" 24
      [("_ref", .str "networkcontainer/AbCd:10.0.0.0/default")] []
      [("text", .str "exhausted"), ("code", .str "Client.Ibap.Data")]
      201 (.str "exhausted") (by decide) (by decide) rfl rfl rfl,
   c3_theorem.2.2.2.2.2 "10.0.0.0/16"
      "networkcontainer/AbCd:10.0.0.0/default" 24
      [("_ref", .str "networkcontainer/AbCd:10.0.0.0/default")] [] 500 none
      (by decide) (by decide) rfl⟩

/-- C4 counterexample: with HTTP 200 and two matching CNAME records, the
ambiguous cardinality is not reported: `update_cname_record` raises no
error and issues no PUT, silently returning `None` (the `'text' in
r_json` membership test on a list of objects is false and
`raise_for_status()` is a no-op at status 200). -/
theorem c4_counterexample :
    Infoblox.update_cname_record "tgt.example.com" "alias.example.com"
      ⟨200, some (.arr
        [.obj [("_ref", .str "record:cname/a:alias.example.com/d")],
         .obj [("_ref", .str "record:cname/b:alias.example.com/d")]])⟩
      ⟨500, none⟩ = (.ok (), false) :=
  rfl

/-- C4 (amended): `update_cname_record` proceeds with the PUT exactly when
the lookup returns HTTP 200 with exactly one match, and raises `NotFound`
on zero matches; but more than one match at HTTP 200 is not reported as a
conflict: the operation raises nothing and issues no PUT, silently
returning `None`. -/
theorem c4_theorem :
    (∀ (canonical name : String) (r2 : Response),
      Infoblox.update_cname_record canonical name ⟨200, some (.arr [])⟩ r2 =
        (.error (.notFound (.str ("CNAME: " ++ name ++ " not found."))),
         false)) ∧
    (∀ (canonical name s : String) (fs : List (String × JSON))
      (body2 : Option JSON),
      lookupKey fs "_ref" = some (.str s) →
      Infoblox.update_cname_record canonical name
        ⟨200, some (.arr [.obj fs])⟩ ⟨200, body2⟩ = (.ok (), true)) ∧
    (∀ (canonical name : String) (xs : List JSON) (r2 : Response),
      xs.length > 1 → xs.contains (JSON.str "text") = false →
      Infoblox.update_cname_record canonical name ⟨200, some (.arr xs)⟩ r2 =
        (.ok (), false)) := by
  refine ⟨?_, ?_, ?_⟩
  · intro canonical name r2
    rfl
  · intro canonical name s fs body2 href
    simp [Infoblox.update_cname_record, sessionReq, rJson, preM, postM,
      pyLen, pyIndex, pyGetItem, href, pyStr, wrapVE]
  · intro canonical name xs r2 hlen hc
    have hne1 : ¬(xs.length = 1) := by omega
    have hne0 : ¬(xs.length = 0) := by omega
    simp [Infoblox.update_cname_record, sessionReq, rJson, preM, pyLen,
      hne1, hne0, textTail, pyIn, hc, raiseForStatus, wrapVE, Bind.bind,
      Except.bind, Pure.pure, Except.pure]

/-- C4 witness: each conjunct of `c4_theorem` instantiated at concrete
inputs with every hypothesis discharged. -/
theorem c4_witness :
    (Infoblox.update_cname_record "tgt.example.com" "alias.example.com"
      ⟨200, some (.arr [])⟩ ⟨500, none⟩ =
      (.error (.notFound (.str "CNAME: alias.example.com not found.")),
       false)) ∧
    (Infoblox.update_cname_record "tgt.example.com" "alias.example.com"
      ⟨200, some (.arr [.obj
        [("_ref", .str "record:cname/a:alias.example.com/d")]])⟩
      ⟨200, some (.obj [])⟩ = (.ok (), true)) ∧
    (Infoblox.update_cname_record "tgt.example.com" "alias.example.com"
      ⟨200, some (.arr
        [.obj [("_ref", .str "record:cname/a:alias.example.com/d")],
         .obj [("_ref", .str "record:cname/b:alias.example.com/d")]])⟩
      ⟨200, some (.arr [])⟩ = (.ok (), false)) :=
  ⟨c4_theorem.1 "tgt.example.com" "alias.example.com" ⟨500, none⟩,
   c4_theorem.2.1 "tgt.example.com" "alias.example.com"
      "record:cname/a:alias.example.com/d"
      [("_ref", .str "record:cname/a:alias.example.com/d")]
      (some (.obj [])) rfl,
   c4_theorem.2.2 "tgt.example.com" "alias.example.com"
      [.obj [("_ref", .str "record:cname/a:alias.example.com/d")],
       .obj [("_ref", .str "record:cname/b:alias.example.com/d")]]
      ⟨200, some (.arr [])⟩ (by decide) (by decide)⟩

/-- C5: code-bug evaluation.  The flag-aware lookup layer honours the
opt-out: `Util.get` with `notFoundFail=False` and a 200/empty reply
returns the `None` sentinel.  But `delete_fixed_address` with
`not_found_fail=False` then subscripts that sentinel (`ref[0]`), so the
caller receives a `TypeError` instead of the sentinel the flag promises. -/
theorem c5_theorem :
    Util.get ⟨200, some (.arr [])⟩
      "Fixed Address not found for IP: 10.1.2.3, MAC: aa:bb:cc:dd:ee:ff"
      false = .ok none ∧
    Infoblox.delete_fixed_address "10.1.2.3" "aa:bb:cc:dd:ee:ff" false
      ⟨200, some (.arr [])⟩ ⟨200, some (.arr [])⟩ =
      (.error .typeError, false) :=
  ⟨rfl, rfl⟩

/-- C6: every address matching none of the three accepted local forms
(dotted-quad CIDR, dotted-quad range, plain dotted quad) makes
`create_host_record` raise `BadInputParameter`, and the HTTP call is
never issued (second component `false`). -/
theorem c6_theorem :
    ∀ (address fqdn : String) (payload : Option JSON) (r : Response),
      matchesCIDR address = false → matchesRange address = false →
      matchesQuad address = false →
      Infoblox.create_host_record address fqdn payload r =
        (.error (.badInput "Expected IP or NET address in CIDR format"),
         false) := by
  intro address fqdn payload r h1 h2 h3
  simp [Infoblox.create_host_record, h1, h2, h3]

/-- C6 witness: `create_host_record("not-an-ip", "x")` matches none of
the three forms and raises `BadInputParameter` with no HTTP call; and the
matchers follow Python's `$`-before-trailing-newline semantics, so an
address like `"1.2.3.4\n"` is accepted and the POST is issued. -/
theorem c6_witness :
    matchesCIDR "not-an-ip" = false ∧ matchesRange "not-an-ip" = false ∧
    matchesQuad "not-an-ip" = false ∧
    Infoblox.create_host_record "not-an-ip" "x" none ⟨200, some (.obj [])⟩ =
      (.error (.badInput "Expected IP or NET address in CIDR format"),
       false) ∧
    matchesQuad "1.2.3.4\n" = true ∧
    matchesCIDR "1.2.3.4/24\n" = true ∧
    matchesRange "1.2.3.4-5.6.7.8\n" = true ∧
    Infoblox.create_host_record "1.2.3.4\n" "x" none
      ⟨200, some (.obj [("ipv4addrs",
        .arr [.obj [("ipv4addr", .str "1.2.3.4")]])])⟩ =
      (.ok (.str "1.2.3.4"), true) :=
  ⟨rfl, rfl, rfl,
   c6_theorem "not-an-ip" "x" none ⟨200, some (.obj [])⟩ rfl rfl rfl,
   rfl, rfl, rfl, rfl⟩

theorem wrapAll_keys (eas : List (String × JSON)) :
    (wrapAll eas).map Prod.fst = eas.map Prod.fst := by
  simp [wrapAll]

theorem wrapAll_objVals (eas : List (String × JSON)) :
    ∀ p ∈ wrapAll eas, ∃ w, p.2 = JSON.obj w := by
  intro p hp
  simp [wrapAll] at hp
  obtain ⟨a, v, _, rfl⟩ := hp
  exact ⟨[("value", v)], rfl⟩

/-- C7: for both extensible-attribute reads, a requested attribute name
absent from the found object's attribute set raises `NotFound` naming
that attribute; with no requested names the full mapping is returned with
every value unwrapped from its `{"value": v}` wrapper. -/
theorem c7_theorem :
    (∀ (fqdn a : String) (attrs : List String)
      (eas fs : List (String × JSON)) (rest : List JSON),
      lookupKey fs "extattrs" = some (.obj (wrapAll eas)) →
      (∃ b ∈ a :: attrs, lookupKey eas b = none) →
      ∃ b, b ∈ a :: attrs ∧ lookupKey eas b = none ∧
        Infoblox.get_host_extattrs fqdn (some (a :: attrs))
          ⟨200, some (.arr (.obj fs :: rest))⟩ =
          .error (.notFound (.str ("No requested attribute found: " ++ b)))) ∧
    (∀ (fqdn : String) (eas fs : List (String × JSON)) (rest : List JSON),
      lookupKey fs "extattrs" = some (.obj (wrapAll eas)) →
      (eas.map Prod.fst).Nodup →
      Infoblox.get_host_extattrs fqdn none
        ⟨200, some (.arr (.obj fs :: rest))⟩ = .ok (some (.obj eas))) ∧
    (∀ (network a : String) (attrs : List String)
      (eas fs : List (String × JSON)) (rest : List JSON),
      lookupKey fs "extattrs" = some (.obj (wrapAll eas)) →
      (∃ b ∈ a :: attrs, lookupKey eas b = none) →
      ∃ b, b ∈ a :: attrs ∧ lookupKey eas b = none ∧
        Infoblox.get_network_extattrs network (some (a :: attrs))
          ⟨200, some (.arr (.obj fs :: rest))⟩ =
          .error (.notFound (.str ("No requested attribute found: " ++ b)))) ∧
    (∀ (network : String) (eas fs : List (String × JSON)) (rest : List JSON),
      lookupKey fs "extattrs" = some (.obj (wrapAll eas)) →
      (eas.map Prod.fst).Nodup →
      Infoblox.get_network_extattrs network none
        ⟨200, some (.arr (.obj fs :: rest))⟩ = .ok (some (.obj eas))) := by
  refine ⟨?_, ?_, ?_, ?_⟩
  · intro fqdn a attrs eas fs rest hext habs
    rcases collectReq_absent eas (a :: attrs) habs [] with ⟨b, hb, hbl, hc⟩
    refine ⟨b, hb, hbl, ?_⟩
    simp [Infoblox.get_host_extattrs, sessionReq, rJson, pyLen, pyIndex,
      pyGetItem, hext, hc, wrapVE1, Bind.bind, Except.bind, Pure.pure,
      Except.pure]
  · intro fqdn eas fs rest hext hnd
    have hfs : ∀ q ∈ eas,
        lookupKey (wrapAll eas) q.1 = some (.obj [("value", q.2)]) := by
      intro q hq
      rw [lookupKey_wrapAll, lookupKey_of_mem_nodup eas hnd q hq]
      rfl
    have hgo := goKeys_append (wrapAll eas) eas [] hfs (fun q _ => rfl) hnd
    have hca : Infoblox.collectAll (.obj (wrapAll eas)) = .ok eas := by
      simp only [Infoblox.collectAll]
      have hk : (wrapAll eas).map (fun p => p.1) = eas.map Prod.fst := by
        simp [wrapAll]
      rw [hk, hgo]
      simp
    simp [Infoblox.get_host_extattrs, sessionReq, rJson, pyLen, pyIndex,
      pyGetItem, hext, hca, wrapVE1, Bind.bind, Except.bind, Pure.pure,
      Except.pure]
  · intro network a attrs eas fs rest hext habs
    rcases collectReq_absent eas (a :: attrs) habs [] with ⟨b, hb, hbl, hc⟩
    refine ⟨b, hb, hbl, ?_⟩
    simp [Infoblox.get_network_extattrs, sessionReq, rJson, pyLen, pyIndex,
      pyGetItem, hext, hc, wrapVE1, Bind.bind, Except.bind, Pure.pure,
      Except.pure]
  · intro network eas fs rest hext hnd
    have hfs : ∀ q ∈ eas,
        lookupKey (wrapAll eas) q.1 = some (.obj [("value", q.2)]) := by
      intro q hq
      rw [lookupKey_wrapAll, lookupKey_of_mem_nodup eas hnd q hq]
      rfl
    have hgo := goKeys_append (wrapAll eas) eas [] hfs (fun q _ => rfl) hnd
    have hca : Infoblox.collectAll (.obj (wrapAll eas)) = .ok eas := by
      simp only [Infoblox.collectAll]
      have hk : (wrapAll eas).map (fun p => p.1) = eas.map Prod.fst := by
        simp [wrapAll]
      rw [hk, hgo]
      simp
    simp [Infoblox.get_network_extattrs, sessionReq, rJson, pyLen, pyIndex,
      pyGetItem, hext, hca, wrapVE1, Bind.bind, Except.bind, Pure.pure,
      Except.pure]

/-- C7 witness: each conjunct of `c7_theorem` instantiated at concrete
inputs with every hypothesis discharged. -/
theorem c7_witness :
    (∃ b, b ∈ ["Missing"] ∧
      lookupKey [("Site", JSON.str "HQ")] b = none ∧
      Infoblox.get_host_extattrs "h.example.com" (some ["Missing"])
        ⟨200, some (.arr [.obj
          [("extattrs", .obj (wrapAll [("Site", JSON.str "HQ")]))]])⟩ =
        .error (.notFound (.str ("No requested attribute found: " ++ b)))) ∧
    (Infoblox.get_host_extattrs "h.example.com" none
      ⟨200, some (.arr [.obj
        [("extattrs", .obj (wrapAll
          [("Site", JSON.str "HQ"), ("Dept", JSON.str "Eng")]))]])⟩ =
      .ok (some (.obj [("Site", .str "HQ"), ("Dept", .str "Eng")]))) ∧
    (∃ b, b ∈ ["Absent"] ∧
      lookupKey [("Site", JSON.str "HQ")] b = none ∧
      Infoblox.get_network_extattrs "10.0.0.0/24" (some ["Absent"])
        ⟨200, some (.arr [.obj
          [("extattrs", .obj (wrapAll [("Site", JSON.str "HQ")]))]])⟩ =
        .error (.notFound (.str ("No requested attribute found: " ++ b)))) ∧
    (Infoblox.get_network_extattrs "10.0.0.0/24" none
      ⟨200, some (.arr [.obj
        [("extattrs", .obj (wrapAll [("Site", JSON.str "HQ")]))]])⟩ =
      .ok (some (.obj [("Site", .str "HQ")]))) :=
  ⟨c7_theorem.1 "h.example.com" "Missing" [] [("Site", JSON.str "HQ")]
      [("extattrs", .obj (wrapAll [("Site", JSON.str "HQ")]))] [] rfl
      ⟨"Missing", List.mem_cons_self "Missing" [], rfl⟩,
   c7_theorem.2.1 "h.example.com"
      [("Site", JSON.str "HQ"), ("Dept", JSON.str "Eng")]
      [("extattrs", .obj (wrapAll
        [("Site", JSON.str "HQ"), ("Dept", JSON.str "Eng")]))] [] rfl
      (by decide),
   c7_theorem.2.2.1 "10.0.0.0/24" "Absent" [] [("Site", JSON.str "HQ")]
      [("extattrs", .obj (wrapAll [("Site", JSON.str "HQ")]))] [] rfl
      ⟨"Absent", List.mem_cons_self "Absent" [], rfl⟩,
   c7_theorem.2.2.2 "10.0.0.0/24" [("Site", JSON.str "HQ")]
      [("extattrs", .obj (wrapAll [("Site", JSON.str "HQ")]))] [] rfl
      (by decide)⟩

/-- C8 counterexample: with a found host whose alias list exists but does
not contain the requested alias, `delete_host_alias` does not raise
`NotFound`: the `ValueError` from `aliases.remove` is caught by the
operation's blanket handler and `InfobloxGeneralException(r)` is raised
instead (and no PUT is issued). -/
theorem c8_counterexample :
    Infoblox.delete_host_alias "host.example.com" "gone.example.com"
      ⟨200, some (.arr [.obj
        [("_ref", .str "record:host/abc:host.example.com/default"),
         ("aliases", .arr [.str "other.example.com"])]])⟩
      ⟨200, some (.arr [])⟩ =
      (.error .generalResp, false) :=
  rfl

/-- C8 (amended): deleting an alias absent from a found host raises
`NotFound` only when the host record has no `aliases` field at all; when
an alias list exists but does not contain the alias, the `ValueError`
from `aliases.remove` is converted by the blanket handler into `General`
(carrying the response object).  In both cases no PUT is issued. -/
theorem c8_theorem :
    (∀ (host_fqdn alias_fqdn s : String) (fs : List (String × JSON))
      (rest : List JSON) (r2 : Response),
      lookupKey fs "_ref" = some (.str s) → s ≠ "" →
      refName "record:host/" s = some host_fqdn →
      lookupKey fs "aliases" = none →
      Infoblox.delete_host_alias host_fqdn alias_fqdn
        ⟨200, some (.arr (.obj fs :: rest))⟩ r2 =
        (.error (.notFound
          (.str ("No requested host alias found: " ++ alias_fqdn))),
         false)) ∧
    (∀ (host_fqdn alias_fqdn s : String) (xs : List JSON)
      (fs : List (String × JSON)) (rest : List JSON) (r2 : Response),
      lookupKey fs "_ref" = some (.str s) → s ≠ "" →
      refName "record:host/" s = some host_fqdn →
      lookupKey fs "aliases" = some (.arr xs) →
      xs.contains (JSON.str alias_fqdn) = false →
      Infoblox.delete_host_alias host_fqdn alias_fqdn
        ⟨200, some (.arr (.obj fs :: rest))⟩ r2 =
        (.error .generalResp, false)) := by
  refine ⟨?_, ?_⟩
  · intro host_fqdn alias_fqdn s fs rest r2 href hs hg hal
    simp [Infoblox.delete_host_alias, sessionReq, rJson, preM, pyLen,
      pyIndex, pyGetItem, href, refGuard, pyTruthy, bne,
      beq_eq_false_iff_ne.mpr hs, hg, pyIn, any_key_eq_isSome, hal, wrapVE]
  · intro host_fqdn alias_fqdn s xs fs rest r2 href hs hg hal hc
    simp [Infoblox.delete_host_alias, sessionReq, rJson, preM, pyLen,
      pyIndex, pyGetItem, href, refGuard, pyTruthy, bne,
      beq_eq_false_iff_ne.mpr hs, hg, pyIn, any_key_eq_isSome, hal, hc,
      wrapVE]

/-- C8 witness: each conjunct of `c8_theorem` instantiated at concrete
inputs with every hypothesis discharged. -/
theorem c8_witness :
    (Infoblox.delete_host_alias "host.example.com" "gone.example.com"
      ⟨200, some (.arr [.obj
        [("_ref", .str "record:host/abc:host.example.com/default")]])⟩
      ⟨200, some (.arr [])⟩ =
      (.error (.notFound
        (.str "No requested host alias found: gone.example.com")), false)) ∧
    (Infoblox.delete_host_alias "host.example.com" "gone.example.com"
      ⟨200, some (.arr [.obj
        [("_ref", .str "record:host/abc:host.example.com/default"),
         ("aliases", .arr [.str "kept.example.com"])]])⟩
      ⟨200, some (.arr [])⟩ = (.error .generalResp, false)) :=
  ⟨c8_theorem.1 "host.example.com" "gone.example.com"
      "record:host/abc:host.example.com/default"
      [("_ref", .str "record:host/abc:host.example.com/default")] []
      ⟨200, some (.arr [])⟩ rfl (by decide) rfl rfl,
   c8_theorem.2 "host.example.com" "gone.example.com"
      "record:host/abc:host.example.com/default" [.str "kept.example.com"]
      [("_ref", .str "record:host/abc:host.example.com/default"),
       ("aliases", .arr [.str "kept.example.com"])] []
      ⟨200, some (.arr [])⟩ rfl (by decide) rfl rfl rfl⟩

/-- C9: `get_network_extattrs` with a non-empty requested-attribute list
all of whose names are present returns `None` rather than the requested
mapping — the `return` is reached only in the no-requested-names branch. -/
theorem c9_theorem :
    ∀ (network a : String) (attrs : List String)
      (eas fs : List (String × JSON)) (rest : List JSON),
      lookupKey fs "extattrs" = some (.obj (wrapAll eas)) →
      (∀ b ∈ a :: attrs, (lookupKey eas b).isSome) →
      Infoblox.get_network_extattrs network (some (a :: attrs))
        ⟨200, some (.arr (.obj fs :: rest))⟩ = .ok none := by
  intro network a attrs eas fs rest hext hall
  rcases collectReq_ok eas (a :: attrs) hall [] with ⟨m, hm⟩
  simp [Infoblox.get_network_extattrs, sessionReq, rJson, pyLen, pyIndex,
    pyGetItem, hext, hm, wrapVE1, Bind.bind, Except.bind, Pure.pure,
    Except.pure]

/-- C9 witness: `c9_theorem` instantiated at a concrete network object
with the single requested attribute present. -/
theorem c9_witness :
    Infoblox.get_network_extattrs "10.0.0.0/24" (some ["Site"])
      ⟨200, some (.arr [.obj
        [("extattrs", .obj (wrapAll [("Site", JSON.str "HQ")]))]])⟩ =
      .ok none :=
  c9_theorem "10.0.0.0/24" "Site" [] [("Site", JSON.str "HQ")]
    [("extattrs", .obj (wrapAll [("Site", JSON.str "HQ")]))] [] rfl
    (by decide)

/-- C10: `update_network_extattrs` with an input mapping containing a
name absent from the network's current extensible attributes raises a
bare `KeyError` (outside the library's exception taxonomy) and issues no
PUT, so a new attribute can never be added. -/
theorem c10_theorem :
    ∀ (network s : String) (attrs eas fs : List (String × JSON))
      (rest : List JSON) (r2 : Response),
      lookupKey fs "_ref" = some (.str s) → s ≠ "" →
      lookupKey fs "extattrs" = some (.obj (wrapAll eas)) →
      (∃ q ∈ attrs, lookupKey eas q.1 = none) →
      ∃ k, lookupKey eas k = none ∧
        Infoblox.update_network_extattrs network attrs
          ⟨200, some (.arr (.obj fs :: rest))⟩ r2 =
          (.error (.keyError k), false) := by
  intro network s attrs eas fs rest r2 href hs hext habs
  have habs' : ∃ q ∈ attrs, lookupKey (wrapAll eas) q.1 = none := by
    rcases habs with ⟨q, hq, hql⟩
    exact ⟨q, hq, by rw [lookupKey_wrapAll, hql]; rfl⟩
  rcases updLoop_absent attrs (wrapAll eas) (wrapAll_objVals eas) habs'
    with ⟨k, hk, hkc⟩
  have hk' : lookupKey eas k = none := by
    rw [lookupKey_wrapAll] at hk
    cases hkk : lookupKey eas k with
    | none => rfl
    | some v => rw [hkk] at hk; simp at hk
  refine ⟨k, hk', ?_⟩
  simp [Infoblox.update_network_extattrs, sessionReq, rJson, preM, pyLen,
    pyIndex, pyGetItem, href, hext, pyTruthy, bne,
    beq_eq_false_iff_ne.mpr hs, hkc, wrapVE]

/-- C10 witness: `c10_theorem` instantiated at a concrete network whose
extensible attributes lack the updated name. -/
theorem c10_witness :
    ∃ k, lookupKey [("Site", JSON.str "HQ")] k = none ∧
      Infoblox.update_network_extattrs "10.0.0.0/24" [("New", .str "v")]
        ⟨200, some (.arr [.obj
          [("_ref", .str "network/AbCd:10.0.0.0/default"),
           ("extattrs", .obj (wrapAll [("Site", JSON.str "HQ")]))]])⟩
        ⟨200, some (.arr [])⟩ =
        (.error (.keyError k), false) :=
  c10_theorem "10.0.0.0/24" "network/AbCd:10.0.0.0/default"
    [("New", .str "v")] [("Site", JSON.str "HQ")]
    [("_ref", .str "network/AbCd:10.0.0.0/default"),
     ("extattrs", .obj (wrapAll [("Site", JSON.str "HQ")]))] []
    ⟨200, some (.arr [])⟩ rfl (by decide) rfl
    ⟨("New", JSON.str "v"), List.mem_cons_self ("New", JSON.str "v") [], rfl⟩
